import Mathlib

/-!
# JustVibe frontend: size estimation, download naming, history and favorites

A shallow embedding of the pure logic of

* `src/utils/audioProcessor.js` (`calculateFileSize`, `formatFileSize`),
* `src/Components/DownloadQualityModal.jsx` (`calculateQualityOptions`, `handleDownload`,
  `handleClose`),
* `src/App.jsx` (`fetchAlbums`, `handleSetSelectedTrack`),
* `src/Songs.jsx` (`handlePlay`, `handleDownload`, `handleAlbumDownload`, `handleLike`,
  `handleAddToLibrary`).

Modelling conventions.

* A JavaScript number is given by the rational that the double is, with `JsNum.nan` added
  where the source can produce `NaN`.  In the size estimates of the dialog and in
  `getQualityOptions` every product, quotient and sum is rounded to the nearest double
  (`toDouble`), and the literals `0.4` and `0.7` are the doubles nearest to `2/5` and
  `7/10`.  `calculateFileSize` is kept in exact arithmetic, as the statement of its formula
  reads it, next to `calculateFileSizeDouble`; the progress of the dialog is in exact
  arithmetic too.  Overflow to `Infinity` is outside the model.
* Browser effects (fetch, storage, events, the clock, timers, `Math.random`) are explicit
  inputs and explicit state; an asynchronous function is split at its `await`.
* Strings are Lean strings; a JavaScript string is seen as its list of characters.
-/

namespace JustVibe

/-! ## JavaScript primitives used by the sources -/

/-- Rounding to the nearest integer, a tie going to the even one. -/
def roundHalfEven (x : ℚ) : ℤ :=
  let f := ⌊x⌋
  if x - f < 1 / 2 then f
  else if 1 / 2 < x - f then f + 1
  else if f % 2 = 0 then f else f + 1

/-- The number of halvings that bring a positive natural number down to 1, found in at
most `fuel` steps: the binary logarithm, rounded down, when `n ≤ fuel`. -/
def floorLog2 : ℕ → ℕ → ℕ
  | 0, _ => 0
  | fuel + 1, n => if n < 2 then 0 else floorLog2 fuel (n / 2) + 1

/-- The binary exponent of a non-zero rational: the `k` with `2 ^ k ≤ |x| < 2 ^ (k + 1)`,
which the logarithms of the numerator and of the denominator give up to one. -/
def binaryExponent (x : ℚ) : ℤ :=
  let a := x.num.natAbs
  let b := x.den
  let e : ℤ := (floorLog2 a a : ℤ) - (floorLog2 b b : ℤ)
  if (2 : ℚ) ^ e ≤ |x| then e else e - 1

/-- The binary exponent of the unit in the last place of the doubles around `x`: 52 below
the binary exponent of `x`, and -1074 for a subnormal. -/
def ulpExponent (x : ℚ) : ℤ := max (binaryExponent x - 52) (-1074)

/-- The double nearest to a rational, a tie going to the even significand: the rounding
that every arithmetic operation of the program applies to its exact result.  Overflow to
`Infinity`, from `2 ^ 1024` on, is not modelled. -/
def toDouble (x : ℚ) : ℚ := roundHalfEven (x / 2 ^ ulpExponent x) * 2 ^ ulpExponent x

/-- A JavaScript number that may be `NaN`; a finite value is the rational that the double
is. -/
inductive JsNum where
  | nan
  | val (q : ℚ)
deriving DecidableEq

namespace JsNum

/-- The product `x * k` of a JavaScript number and a finite number, rounded. -/
def mul (x : JsNum) (k : ℚ) : JsNum :=
  match x with
  | nan => nan
  | val q => val (toDouble (q * k))

/-- The quotient `x / k` of a JavaScript number and a non-zero finite number, rounded. -/
def div (x : JsNum) (k : ℚ) : JsNum :=
  match x with
  | nan => nan
  | val q => val (toDouble (q / k))

/-- The sum `x + y`, rounded. -/
def add (x y : JsNum) : JsNum :=
  match x, y with
  | val p, val q => val (toDouble (p + q))
  | _, _ => nan

end JsNum

/-- The function `Math.round`: the nearest integer, a tie going towards `+∞`. -/
def mathRound (x : ℚ) : ℤ := ⌊x + 1 / 2⌋

/-- The template rendering of an integral number, as in `${Math.round(x)}`: decimal digits,
with a leading minus sign for a negative value (the rendering of every integral value
below `10 ^ 21` in absolute value). -/
def numToString (n : ℤ) : String := toString n

/-- The method `Number.prototype.toFixed` at one fraction digit: with `n` the integer nearest
to `|x| * 10` (a tie going to the larger `n`), the digits of `n` with a point before the
last one, after the sign of `x`. -/
def toFixed1 (x : ℚ) : String :=
  let n : ℕ := (mathRound (|x| * 10)).toNat
  (if x < 0 then "-" else "") ++ toString (n / 10) ++ "." ++ toString (n % 10)

/-- The characters matched by `\s` in a JavaScript regular expression; `parseInt` skips the
same characters at the start of its argument. -/
def isJsWhitespace (c : Char) : Bool :=
  let n := c.toNat
  n == 0x09 || n == 0x0A || n == 0x0B || n == 0x0C || n == 0x0D || n == 0x20 || n == 0xA0 ||
    n == 0x1680 || (0x2000 ≤ n && n ≤ 0x200A) || n == 0x2028 || n == 0x2029 || n == 0x202F ||
    n == 0x205F || n == 0x3000 || n == 0xFEFF

/-- The value of a character as a digit, for radixes up to 36. -/
def digitValue (c : Char) : Option ℕ :=
  if '0' ≤ c ∧ c ≤ '9' then some (c.toNat - '0'.toNat)
  else if 'a' ≤ c ∧ c ≤ 'z' then some (c.toNat - 'a'.toNat + 10)
  else if 'A' ≤ c ∧ c ≤ 'Z' then some (c.toNat - 'A'.toNat + 10)
  else none

/-- Whether a character is a digit of the given radix. -/
def isRadixDigit (radix : ℕ) (c : Char) : Bool :=
  match digitValue c with
  | some d => decide (d < radix)
  | none => false

/-- The global `parseInt` with no radix argument: leading whitespace is skipped, a sign is
read, a `0x` or `0X` prefix selects radix 16, and the longest run of digits is the value;
`none` stands for `NaN` (no digit read). -/
def parseInt (s : String) : Option ℤ :=
  let cs := s.toList.dropWhile isJsWhitespace
  let signed : Bool × List Char :=
    match cs with
    | '-' :: rest => (true, rest)
    | '+' :: rest => (false, rest)
    | _ => (false, cs)
  let based : ℕ × List Char :=
    match signed.2 with
    | '0' :: 'x' :: rest => (16, rest)
    | '0' :: 'X' :: rest => (16, rest)
    | _ => (10, signed.2)
  let digits := based.2.takeWhile (isRadixDigit based.1)
  if digits.isEmpty then none
  else
    let magnitude : ℕ := digits.foldl (fun acc c => acc * based.1 + (digitValue c).getD 0) 0
    some (if signed.1 then -(magnitude : ℤ) else (magnitude : ℤ))

/-- The number returned by `parseInt`: the double nearest to the integer read, or `NaN`. -/
def parseIntNum (s : String) : JsNum :=
  match parseInt s with
  | some n => .val (toDouble n)
  | none => .nan

/-- The method `String.prototype.includes`: the pattern occurs as a contiguous substring. -/
def includes (s pattern : String) : Bool :=
  s.toList.tails.any (fun t => pattern.toList.isPrefixOf t)

/-- The expression `a || b` on optional strings: `a` when it is a non-empty string, else `b`. -/
def orElseStr (a b : Option String) : Option String :=
  match a with
  | some s => if s ≠ "" then some s else b
  | none => b

/-! ## `utils/audioProcessor.js` -/

/-- The function `AudioProcessor.calculateFileSize`, in exact arithmetic. -/
def calculateFileSize (durationInSeconds bitrateKbps : ℚ) : ℚ :=
  let sizeInKB := (bitrateKbps * durationInSeconds) / 8
  let sizeInMB := sizeInKB / 1024
  sizeInMB

/-- The function `AudioProcessor.calculateFileSize` in the arithmetic of the program: the
product and the two quotients are each rounded to a double. -/
def calculateFileSizeDouble (durationInSeconds bitrateKbps : ℚ) : ℚ :=
  let sizeInKB := toDouble (toDouble (bitrateKbps * durationInSeconds) / 8)
  let sizeInMB := toDouble (sizeInKB / 1024)
  sizeInMB

/-- The function `AudioProcessor.formatFileSize` on a finite size. -/
def formatFileSize (sizeInMB : ℚ) : String :=
  if sizeInMB < 1 then
    numToString (mathRound (sizeInMB * 1024)) ++ " KB"
  else if sizeInMB < 10 then
    toFixed1 sizeInMB ++ " MB"
  else
    numToString (mathRound sizeInMB) ++ " MB"

/-- The function `AudioProcessor.formatFileSize` on any JavaScript number: both comparisons
are false at `NaN`, and `Math.round(NaN)` renders as `NaN`. -/
def formatFileSizeNum (sizeInMB : JsNum) : String :=
  match sizeInMB with
  | .nan => "NaN MB"
  | .val q => formatFileSize q

/-- The table `AudioProcessor.bitrates`, read at a key. -/
def bitrates (quality : String) : Option ℕ :=
  if quality = "low" then some 128
  else if quality = "medium" then some 256
  else if quality = "high" then some 320
  else none

/-- The list `Object.entries(this.bitrates)`: the keys of the table with their values, in
the order in which the constructor wrote them. -/
def bitratesEntries : List (String × ℕ) :=
  [("low", 128), ("medium", 256), ("high", 320)]

/-- One element of the list returned by `AudioProcessor.getQualityOptions`. -/
structure QualityEstimate where
  quality : String
  bitrate : String
  size : String
  sizeInMB : ℚ
  description : String
deriving DecidableEq

/-- The function `AudioProcessor.getQualityDescription`. -/
def getQualityDescription (quality : String) (bitrate : ℕ) : String :=
  if quality = "low" then "Standard quality - " ++ toString bitrate ++ "kbps"
  else if quality = "medium" then "High quality - " ++ toString bitrate ++ "kbps"
  else if quality = "high" then "Premium quality - " ++ toString bitrate ++ "kbps"
  else "Custom quality - " ++ toString bitrate ++ "kbps"

/-- The function `AudioProcessor.getQualityOptions`. -/
def getQualityOptions (durationInSeconds : ℚ) : List QualityEstimate :=
  bitratesEntries.map fun (quality, bitrate) =>
    let fileSize := calculateFileSizeDouble durationInSeconds bitrate
    { quality := quality
      bitrate := toString bitrate ++ "k"
      size := formatFileSize fileSize
      sizeInMB := fileSize
      description := getQualityDescription quality bitrate }

/-! ## Records shared by the components -/

/-- A song (track) record; every field but the title may be absent. -/
structure Song where
  title : String
  artist : Option String
  src : Option String
  url : Option String
  duration : Option ℚ
  img : Option String
deriving DecidableEq

/-- An album record. -/
structure Album where
  id : String
  title : String
  artist : Option String
  img : Option String
  songs : List Song
deriving DecidableEq

/-! ## `Components/DownloadQualityModal.jsx` -/

/-- One entry of the dialog's `qualityOptions`. -/
structure QualityOption where
  id : String
  label : String
  description : String
  size : String
  color : String
deriving DecidableEq

/-- The outcome of the metadata probe `fetch(song.src, { method: 'HEAD', mode: 'cors' })`
followed by `response.headers.get('content-length')`: the fetch rejected (network failure
or a blocked cross-origin request), or a response arrived whose header is absent (`none`)
or has a value. -/
inductive HeadProbe where
  | rejected
  | responded (contentLength : Option String)
deriving DecidableEq

/-- The expression `song.duration || 210`: an absent or zero duration gives the default. -/
def durationOrDefault (duration : Option ℚ) : ℚ :=
  match duration with
  | some d => if d ≠ 0 then d else 210
  | none => 210

/-- The value of `actualSizeMB` in the single-song branch of `calculateQualityOptions` right
after the probe (before the fallback test): it stays `0` unless a non-empty content-length
was read, and is then `parseInt(contentLength) / (1024 * 1024)`. -/
def probedSizeMB (probe : HeadProbe) : JsNum :=
  match probe with
  | .rejected => .val 0
  | .responded none => .val 0
  | .responded (some contentLength) =>
    if contentLength ≠ "" then (parseIntNum contentLength).div (1024 * 1024)
    else .val 0

/-- The value of `actualSizeMB` in the single-song branch of `calculateQualityOptions` when
the options are built: the probed size, replaced by the estimate at 192 kbps (taken in
exact arithmetic, as `calculateFileSize` is) when it is strictly equal to `0`. -/
def actualSizeMB (probe : HeadProbe) (song : Song) : JsNum :=
  let probed := probedSizeMB probe
  if probed = .val 0 then
    let duration := durationOrDefault song.duration
    .val (calculateFileSize duration 192)
  else probed

/-- The three options built from a high-tier size, in both branches of
`calculateQualityOptions`; the factors are the doubles that the literals `0.4` and `0.7`
denote. -/
def optionsFor (sizeMB : JsNum) : List QualityOption :=
  [ { id := "low", label := "Low Quality", description := "Standard quality - 128kbps",
      size := formatFileSizeNum (sizeMB.mul (toDouble (2 / 5))), color := "rgb(255, 140, 0)" },
    { id := "medium", label := "Medium Quality", description := "High quality - 256kbps",
      size := formatFileSizeNum (sizeMB.mul (toDouble (7 / 10))), color := "rgb(255, 123, 47)" },
    { id := "high", label := "High Quality", description := "Premium quality - 320kbps",
      size := formatFileSizeNum sizeMB, color := "rgb(255, 87, 34)" } ]

/-- The size in bytes that the album branch of `calculateQualityOptions` records for one
track: `parseInt(contentLength)` for a non-empty header, `0` otherwise. -/
def probedSizeBytes (probe : HeadProbe) : JsNum :=
  match probe with
  | .rejected => .val 0
  | .responded none => .val 0
  | .responded (some contentLength) =>
    if contentLength ≠ "" then parseIntNum contentLength
    else .val 0

/-- The value of `totalSizeMB` in the album branch of `calculateQualityOptions`. -/
def totalSizeMB (album : Album) (probe : Song → HeadProbe) : JsNum :=
  let fileSizes := album.songs.map (fun song => probedSizeBytes (probe song))
  let totalSizeBytes : JsNum := fileSizes.foldl (fun sum size => JsNum.add sum size) (JsNum.val 0)
  totalSizeBytes.div (1024 * 1024)

/-- The list passed to `setQualityOptions` by `calculateQualityOptions` (`none` when it is
not called, for a dialog with neither payload); `probe` gives the outcome of each track's
probe. -/
def calculateQualityOptions (album : Option Album) (song : Option Song)
    (probe : Song → HeadProbe) : Option (List QualityOption) :=
  match album, song with
  | some album, _ => some (optionsFor (totalSizeMB album probe))
  | none, some song => some (optionsFor (actualSizeMB (probe song) song))
  | none, none => none


/-! ## `App.jsx` -/

/-- Whether an optional string is truthy: present and not empty. -/
def truthy (v : Option String) : Bool :=
  match v with
  | some s => decide (s ≠ "")
  | none => false

/-- One entry of a stored history: the fields of the track, and `playedAt`. -/
structure HistoryEntry where
  track : Song
  playedAt : String
deriving DecidableEq

/-- The state that `handleSetSelectedTrack` reads and writes: the `username` item of the
browser storage, the component state `currentTrack` and `showLoginPopup`, the histories in
the browser storage by key (an absent or empty item is `none`), and the payloads of the
`historyUpdated` events dispatched so far. -/
structure AppState where
  username : Option String
  currentTrack : Option Song
  showLoginPopup : Bool
  storedHistory : String → Option (List HistoryEntry)
  historyUpdated : List (List HistoryEntry)

/-- The function `handleSetSelectedTrack` of `App`; `now` is `new Date().toISOString()`. -/
def handleSetSelectedTrack (s : AppState) (now : String) (track : Option Song) : AppState :=
  if !truthy s.username then
    { s with showLoginPopup := true }
  else
    let s1 := { s with currentTrack := track }
    match s.username, track with
    | some username, some track =>
      let historyKey := "history_" ++ username
      let history : List HistoryEntry :=
        match s1.storedHistory historyKey with
        | some stored => stored
        | none => []
      let history := history.filter
        (fun item => item.track.title != track.title || item.track.artist != track.artist)
      let history := { track := track, playedAt := now } :: history
      let history := if history.length > 100 then history.take 100 else history
      { s1 with
        storedHistory := Function.update s1.storedHistory historyKey (some history)
        historyUpdated := s1.historyUpdated ++ [history] }
    | _, _ => s1

/-! ## `Songs.jsx`: downloads -/

/-- A binary object: its bytes and its `type` (the content type of the response that
produced it). -/
structure Blob where
  bytes : List ℕ
  type : String
deriving DecidableEq

/-- The outcome of `fetch(song.src, ...)` followed by `response.blob()`: a rejection with
the message of its error, or a response with its `ok` flag, its status and its body. -/
inductive FetchResult where
  | rejected (message : String)
  | response (ok : Bool) (status : ℕ) (blob : Blob)
deriving DecidableEq

/-- A save offered to the user through a temporary link: the `download` attribute of the
link and the object behind its `href`. -/
structure SavedFile where
  filename : String
  content : Blob
deriving DecidableEq

/-- The expression `audioProcessor.bitrates[quality] || 320`. -/
def bitrateOf (quality : String) : ℕ :=
  match bitrates quality with
  | some bitrate => if bitrate ≠ 0 then bitrate else 320
  | none => 320

/-- Whether a character matches the class `[^a-zA-Z0-9\s]`. -/
def matchesNonAlnumSpace (c : Char) : Bool :=
  !(decide ('a' ≤ c ∧ c ≤ 'z') || decide ('A' ≤ c ∧ c ≤ 'Z') || decide ('0' ≤ c ∧ c ≤ '9')
    || isJsWhitespace c)

/-- A global replacement `replace(/[...]/g, replacement)` for a pattern that matches single
characters: each matching character is replaced, the others are copied. -/
def replaceAll (isMatch : Char → Bool) (replacement : List Char) : List Char → List Char
  | [] => []
  | c :: cs =>
    if isMatch c then replacement ++ replaceAll isMatch replacement cs
    else c :: replaceAll isMatch replacement cs

/-- The expression `title.replace(/[^a-zA-Z0-9\s]/g, '')`. -/
def sanitizeTitle (title : String) : String :=
  String.mk (replaceAll matchesNonAlnumSpace "".toList title.toList)

/-- The extension chosen from `originalBlob.type`, in `handleDownload` and in the loop of
`handleAlbumDownload`. -/
def extensionOf (type : String) : String :=
  if includes type "wav" then "wav"
  else if includes type "m4a" then "m4a"
  else if includes type "flac" then "flac"
  else "mp3"

/-- The file name built in `handleDownload` and in the loop of `handleAlbumDownload`:
the sanitized title, an underscore, the bitrate, `kbps.` and the extension. -/
def fileNameOf (title : String) (bitrate : ℕ) (originalBlob : Blob) : String :=
  let extension := extensionOf originalBlob.type
  sanitizeTitle title ++ "_" ++ toString bitrate ++ "kbps." ++ extension

/-- The function `handleDownload` of `Songs`: the save that it triggers, or the message of
the error that it rethrows. -/
def handleDownload (song : Song) (quality : String) (fetched : FetchResult) :
    Except String SavedFile :=
  match fetched with
  | .rejected message => .error message
  | .response ok status originalBlob =>
    if !ok then .error ("Network response was not ok: " ++ toString status)
    else
      let bitrate := bitrateOf quality
      let filename := fileNameOf song.title bitrate originalBlob
      .ok { filename := filename, content := originalBlob }

/-- A file of an archive folder. -/
structure ZipEntry where
  name : String
  content : Blob
deriving DecidableEq

/-- The call `albumFolder.file(fileName, originalBlob)`: the file is added, in place of a
file of the same name when there is one. -/
def zipFile (files : List ZipEntry) (fileName : String) (originalBlob : Blob) :
    List ZipEntry :=
  if files.any (fun f => f.name == fileName) then
    files.map (fun f => if f.name == fileName then { f with content := originalBlob } else f)
  else files ++ [{ name := fileName, content := originalBlob }]

/-- The loop of `handleAlbumDownload` from index `i` on: a track whose fetch is rejected or
not successful is skipped, the blob of any other is added under its file name. -/
def addTracks (bitrate : ℕ) (fetched : ℕ → FetchResult) :
    ℕ → List Song → List ZipEntry → List ZipEntry
  | _, [], files => files
  | i, song :: rest, files =>
    match fetched i with
    | .response true _ originalBlob =>
      addTracks bitrate fetched (i + 1) rest
        (zipFile files (fileNameOf song.title bitrate originalBlob) originalBlob)
    | _ => addTracks bitrate fetched (i + 1) rest files

/-- The archive offered by `handleAlbumDownload`: the `download` attribute of the link, the
folder created by `zip.folder(album.title)` and the files added to it. -/
structure SavedArchive where
  filename : String
  folder : String
  files : List ZipEntry
deriving DecidableEq

/-- The function `handleAlbumDownload` of `Songs`: `none` when there is no album, the
archive that it offers, or the message of the error that it rethrows.  `importError` and
`generateError` are the errors, if any, of loading the archive library and of
`zip.generateAsync`; `fetched i` is the outcome of the fetch of track `i`. -/
def handleAlbumDownload (album : Option Album) (quality : String)
    (importError : Option String) (fetched : ℕ → FetchResult)
    (generateError : Option String) : Except String (Option SavedArchive) :=
  match album with
  | none => .ok none
  | some album =>
    match importError with
    | some message => .error message
    | none =>
      let bitrate := bitrateOf quality
      let files := addTracks bitrate fetched 0 album.songs []
      match generateError with
      | some message => .error message
      | none =>
        .ok (some { filename := sanitizeTitle album.title ++ "_" ++ toString bitrate ++ "kbps.zip"
                    folder := album.title
                    files := files })

/-! ## `Songs.jsx`: favorites -/

/-- An entry of the favorites (`songData`): the fields of the song, then `albumId`,
`albumCover`, `artist`, `addedAt` and `src`, the last five as set by the handlers. -/
structure SongData where
  title : String
  url : Option String
  duration : Option ℚ
  img : Option String
  albumId : String
  albumCover : Option String
  artist : Option String
  addedAt : String
  src : Option String
deriving DecidableEq

/-- The record `favorites`. -/
structure Favorites where
  liked : List SongData
  added : List SongData
deriving DecidableEq

/-- The state that `handleLike` and `handleAddToLibrary` read and write: the `username`
item of the browser storage, the component state `favorites`, the favorites in the browser
storage by key, and the payloads of the `favoritesUpdated` events dispatched so far. -/
structure SongsState where
  username : Option String
  favorites : Favorites
  storedFavorites : String → Option Favorites
  favoritesUpdated : List Favorites

/-- The record `songData` built by `handleLike` and `handleAddToLibrary`; `albumId` is the
id of the album on display and `now` is `new Date().toISOString()`. -/
def songData (album : Album) (now : String) (song : Song) : SongData :=
  { title := song.title
    url := song.url
    duration := song.duration
    img := song.img
    albumId := album.id
    albumCover := album.img
    artist := album.artist
    addedAt := now
    src := orElseStr song.src song.url }

/-- The function `handleLike` of `Songs`. -/
def handleLike (s : SongsState) (album : Album) (now : String) (song : Song) : SongsState :=
  match s.username with
  | none => s
  | some username =>
    if username = "" then s
    else
      let isLiked := s.favorites.liked.any (fun x => x.title == song.title)
      let newFavorites : Favorites :=
        if isLiked then
          { s.favorites with liked := s.favorites.liked.filter (fun x => x.title != song.title) }
        else
          { s.favorites with liked := s.favorites.liked ++ [songData album now song] }
      { s with
        favorites := newFavorites
        storedFavorites :=
          Function.update s.storedFavorites ("favorites_" ++ username) (some newFavorites)
        favoritesUpdated := s.favoritesUpdated ++ [newFavorites] }

/-- The function `handleAddToLibrary` of `Songs`. -/
def handleAddToLibrary (s : SongsState) (album : Album) (now : String) (song : Song) :
    SongsState :=
  match s.username with
  | none => s
  | some username =>
    if username = "" then s
    else
      let isAdded := s.favorites.added.any (fun x => x.title == song.title)
      let newFavorites : Favorites :=
        if isAdded then
          { s.favorites with added := s.favorites.added.filter (fun x => x.title != song.title) }
        else
          { s.favorites with added := s.favorites.added ++ [songData album now song] }
      { s with
        favorites := newFavorites
        storedFavorites :=
          Function.update s.storedFavorites ("favorites_" ++ username) (some newFavorites)
        favoritesUpdated := s.favoritesUpdated ++ [newFavorites] }

/-! ## `Components/DownloadQualityModal.jsx`: the state of the dialog -/

/-- The state of one `DownloadQualityModal`: its five state variables, the number of calls
of the `onClose` property made so far, the interval timers that are set and not cleared
(by identifier), the number of pending closing timeouts, and the identifier that the next
timer gets. -/
structure ModalState where
  selectedQuality : String
  isDownloading : Bool
  downloadProgress : ℚ
  qualityOptions : List QualityOption
  isLoadingSizes : Bool
  onCloseCalls : ℕ
  intervals : List ℕ
  closeTimeouts : ℕ
  nextTimer : ℕ
deriving DecidableEq

/-- The list set by the `catch` block of `calculateQualityOptions`. -/
def defaultOptions : List QualityOption :=
  [ { id := "low", label := "Low Quality", description := "Standard quality - 128kbps",
      size := "~2.5 MB", color := "rgb(255, 140, 0)" },
    { id := "medium", label := "Medium Quality", description := "High quality - 256kbps",
      size := "~5.0 MB", color := "rgb(255, 123, 47)" },
    { id := "high", label := "High Quality", description := "Premium quality - 320kbps",
      size := "~6.5 MB", color := "rgb(255, 87, 34)" } ]

namespace Modal

/-- The whole of `calculateQualityOptions` on the state of the dialog: `isLoadingSizes` is
set, the `try` block sets the computed options, the `catch` block sets the default list,
and the `finally` block clears `isLoadingSizes`.  `thrown` is the error, if any, raised
inside the `try` block (as when `album.songs` is not an array). -/
def calculateQualityOptions (m : ModalState) (album : Option Album) (song : Option Song)
    (probe : Song → HeadProbe) (thrown : Option String) : ModalState :=
  let m1 := { m with isLoadingSizes := true }
  let m2 :=
    match thrown with
    | some _ => { m1 with qualityOptions := defaultOptions }
    | none =>
      match JustVibe.calculateQualityOptions album song probe with
      | some options => { m1 with qualityOptions := options }
      | none => m1
  { m2 with isLoadingSizes := false }

/-- The statements of the dialog's `handleDownload` up to its `await`: the flags are set
and, for an album, `progressInterval` is started. -/
def handleDownloadStart (m : ModalState) (isAlbumDownload : Bool) : ModalState :=
  let m1 := { m with isDownloading := true, downloadProgress := 0 }
  if isAlbumDownload then
    { m1 with intervals := m1.nextTimer :: m1.intervals, nextTimer := m1.nextTimer + 1 }
  else m1

/-- One run of the callback of the interval timer `id`, with `random` the value of
`Math.random()`; a timer that is not set does not run. -/
def progressTick (m : ModalState) (id : ℕ) (random : ℚ) : ModalState :=
  if id ∈ m.intervals then
    if m.downloadProgress ≥ 90 then { m with intervals := m.intervals.erase id }
    else { m with downloadProgress := m.downloadProgress + random * 10 }
  else m

/-- The statements of the dialog's `handleDownload` after its `await`, once the awaited
`onAlbumDownload` or `onDownload` has settled with `outcome`; `progressInterval` is the
timer started by this call. -/
def handleDownloadSettle (m : ModalState) (isAlbumDownload : Bool) (progressInterval : ℕ)
    (outcome : Except String Unit) : ModalState :=
  let m1 :=
    match outcome with
    | .ok _ =>
      if isAlbumDownload then
        { m with
          intervals := m.intervals.erase progressInterval
          downloadProgress := 100
          closeTimeouts := m.closeTimeouts + 1 }
      else { m with onCloseCalls := m.onCloseCalls + 1 }
    | .error _ => { m with downloadProgress := 0 }
  { m1 with isDownloading := false }

/-- The callback of the closing timeout set after an album download. -/
def closeTimeout (m : ModalState) : ModalState :=
  if m.closeTimeouts = 0 then m
  else
    { m with
      onCloseCalls := m.onCloseCalls + 1
      downloadProgress := 0
      closeTimeouts := m.closeTimeouts - 1 }

/-- The function `handleClose` of the dialog. -/
def handleClose (m : ModalState) : ModalState :=
  if !m.isDownloading then
    { m with onCloseCalls := m.onCloseCalls + 1, downloadProgress := 0 }
  else m

end Modal

/-! ## `Songs.jsx`: playback -/

/-- The state that `handlePlay` reads and writes: the component state `currentSong`, the
play flag, the tracks passed to `setSelectedTrack` so far and the payloads of the
`songStateChanged` events dispatched so far. -/
structure PlaybackState where
  currentSong : Option Song
  isPlaying : Bool
  selectedTracks : List Song
  songStateChanged : List (Song × Bool)
deriving DecidableEq

/-- The listener `handleSongStateChange` of `Songs`, run on an event of detail
`{ song, isPlaying }`. -/
def handleSongStateChange (s : PlaybackState) (song : Option Song) (newIsPlaying : Bool) :
    PlaybackState :=
  match song with
  | some song => { s with currentSong := some song, isPlaying := newIsPlaying }
  | none => s

/-- The function `handlePlay` of `Songs`; a dispatched `songStateChanged` event runs the
component's own listener at once. -/
def handlePlay (s : PlaybackState) (song : Song) : PlaybackState :=
  let songSrc := orElseStr song.src song.url
  let actualIsPlaying := s.isPlaying
  let isCurrent : Bool :=
    match s.currentSong with
    | some currentSong => decide (currentSong.src = songSrc)
    | none => false
  if isCurrent then
    let s1 := { s with
      songStateChanged := s.songStateChanged ++ [({ song with src := songSrc }, !actualIsPlaying)] }
    let s2 := handleSongStateChange s1 (some { song with src := songSrc }) (!actualIsPlaying)
    { s2 with isPlaying := !actualIsPlaying }
  else
    let s1 := { s with
      selectedTracks := s.selectedTracks ++ [{ song with src := songSrc }]
      currentSong := some { song with src := songSrc }
      isPlaying := true }
    let s2 := { s1 with
      songStateChanged := s1.songStateChanged ++ [({ song with src := songSrc }, true)] }
    handleSongStateChange s2 (some { song with src := songSrc }) true

/-! ## `App.jsx`: the catalog -/

/-- The result of `response.json()` for the catalog: a rejection with the message of its
error, an array of albums, or a value that is not an array. -/
inductive CatalogPayload where
  | invalid (message : String)
  | array (data : List Album)
  | notArray
deriving DecidableEq

/-- The outcome of the catalog `fetch`: a rejection with the message of its error, or a
response with its `ok` flag, its status and its payload. -/
inductive CatalogFetch where
  | rejected (message : String)
  | response (ok : Bool) (status : ℕ) (payload : CatalogPayload)
deriving DecidableEq

/-- The catalog part of the state of `App`. -/
structure CatalogState where
  albums : List Album
  isLoadingAlbums : Bool
  albumsError : Option String
deriving DecidableEq

/-- The state of the catalog when `App` is mounted. -/
def CatalogState.initial : CatalogState :=
  { albums := [], isLoadingAlbums := false, albumsError := none }

/-- The expression `err.message || 'Failed to load albums'`. -/
def errorMessageOrDefault (message : String) : String :=
  if message ≠ "" then message else "Failed to load albums"

/-- The function `fetchAlbums` of `App`. -/
def fetchAlbums (s : CatalogState) (fetched : CatalogFetch) : CatalogState :=
  let s1 := { s with isLoadingAlbums := true, albumsError := none }
  let s2 :=
    match fetched with
    | .rejected message => { s1 with albumsError := some (errorMessageOrDefault message) }
    | .response ok status payload =>
      if !ok then
        { s1 with
          albumsError :=
            some (errorMessageOrDefault ("Failed to load albums: " ++ toString status)) }
      else
        match payload with
        | .invalid message => { s1 with albumsError := some (errorMessageOrDefault message) }
        | .array data => { s1 with albums := data }
        | .notArray => { s1 with albums := [] }
  { s2 with isLoadingAlbums := false }

/-! ## Definitions used to state the properties -/

/-- Whether a history entry has the title and artist of a track. -/
def sameTrack (t : Song) (e : HistoryEntry) : Bool :=
  e.track.title == t.title && e.track.artist == t.artist

/-- The history that `handleSetSelectedTrack` stores over a previous history `h`: the new
entry, then the entries of `h` of another title or artist, cut at 100 entries. -/
def nextHistory (h : List HistoryEntry) (t : Song) (now : String) : List HistoryEntry :=
  ({ track := t, playedAt := now } :: h.filter (fun e => !sameTrack t e)).take 100

/-- One file for each track whose fetch succeeded, from index `i` on, in the order of the
tracks: what the archive is meant to hold. -/
def fetchedFiles (bitrate : ℕ) (fetched : ℕ → FetchResult) : ℕ → List Song → List ZipEntry
  | _, [] => []
  | i, song :: rest =>
    match fetched i with
    | .response true _ originalBlob =>
      { name := fileNameOf song.title bitrate originalBlob, content := originalBlob }
        :: fetchedFiles bitrate fetched (i + 1) rest
    | _ => fetchedFiles bitrate fetched (i + 1) rest

/-- What can happen to the dialog between the start of a download and its end: a run of
an interval timer (of this call or left by an earlier one), a close request, or the closing
timeout of an earlier album download. -/
inductive DownloadEvent where
  | tick (id : ℕ) (random : ℚ)
  | closeRequest
  | closingTimeout

/-- The state of the dialog after an event. -/
def afterEvent (m : ModalState) : DownloadEvent → ModalState
  | .tick id random => Modal.progressTick m id random
  | .closeRequest => Modal.handleClose m
  | .closingTimeout => Modal.closeTimeout m

/-- The value of `Math.random()` in an event is in `[0, 1)`. -/
def DownloadEvent.inRange : DownloadEvent → Prop
  | .tick _ random => 0 ≤ random ∧ random < 1
  | .closeRequest => True
  | .closingTimeout => True

/-- The string `s` contains the word `word`, spelled out: `s` is some text, then `word`,
then some text. -/
def containsWord (s word : String) : Prop :=
  ∃ before after : String, s = before ++ word ++ after

/-- The characters that a sanitized title keeps: ASCII letters, digits and whitespace. -/
def isKept (c : Char) : Bool :=
  c.isAlpha || c.isDigit || isJsWhitespace c

/-! ## Helper lemmas on rounding and rendering -/

theorem mathRound_eq_iff (x : ℚ) (k : ℤ) :
    mathRound x = k ↔ (k : ℚ) ≤ x + 1 / 2 ∧ x + 1 / 2 < k + 1 := by
  unfold mathRound
  exact Int.floor_eq_iff

theorem mathRound_nonneg {x : ℚ} (hx : 0 ≤ x) : 0 ≤ mathRound x := by
  unfold mathRound
  exact Int.floor_nonneg.mpr (by linarith)

theorem numToString_ofNat (n : ℕ) : numToString (n : ℤ) = toString n := rfl

theorem numToString_mathRound {x : ℚ} (hx : 0 ≤ x) :
    numToString (mathRound x) = toString (mathRound x).toNat := by
  have h := Int.toNat_of_nonneg (mathRound_nonneg hx)
  conv_lhs => rw [← h]
  rfl

theorem cast_toNat_mathRound {x : ℚ} (hx : 0 ≤ x) :
    (((mathRound x).toNat : ℕ) : ℚ) = ((mathRound x : ℤ) : ℚ) := by
  have h := Int.toNat_of_nonneg (mathRound_nonneg hx)
  exact_mod_cast congrArg (fun z : ℤ => (z : ℚ)) h

theorem mathRound_bounds (x : ℚ) :
    x - 1 / 2 < (mathRound x : ℚ) ∧ (mathRound x : ℚ) ≤ x + 1 / 2 := by
  have h := (mathRound_eq_iff x (mathRound x)).mp rfl
  constructor <;> linarith [h.1, h.2]

theorem parseInt_empty : parseInt "" = none := by decide

/-! ## Helper lemmas on the rounding to a double -/

theorem roundHalfEven_intCast (n : ℤ) : roundHalfEven (n : ℚ) = n := by
  simp [roundHalfEven]

theorem floor_le_roundHalfEven (x : ℚ) : ⌊x⌋ ≤ roundHalfEven x := by
  unfold roundHalfEven
  simp only
  split_ifs <;> omega

theorem roundHalfEven_le_floor_add_one (x : ℚ) : roundHalfEven x ≤ ⌊x⌋ + 1 := by
  unfold roundHalfEven
  simp only
  split_ifs <;> omega

theorem roundHalfEven_mono {x y : ℚ} (h : x ≤ y) : roundHalfEven x ≤ roundHalfEven y := by
  rcases lt_or_eq_of_le (Int.floor_mono h) with hlt | heq
  · calc roundHalfEven x ≤ ⌊x⌋ + 1 := roundHalfEven_le_floor_add_one x
      _ ≤ ⌊y⌋ := hlt
      _ ≤ roundHalfEven y := floor_le_roundHalfEven y
  · unfold roundHalfEven
    simp only
    rw [heq]
    split_ifs <;> first | omega | (exfalso; linarith)

theorem roundHalfEven_le_of_le {x : ℚ} {n : ℤ} (h : x ≤ n) : roundHalfEven x ≤ n := by
  have := roundHalfEven_mono h
  rwa [roundHalfEven_intCast] at this

theorem le_roundHalfEven_of_le {x : ℚ} {n : ℤ} (h : (n : ℚ) ≤ x) : n ≤ roundHalfEven x := by
  have := roundHalfEven_mono h
  rwa [roundHalfEven_intCast] at this

theorem floorLog2_spec : ∀ (fuel n : ℕ), n ≤ fuel → 0 < n →
    2 ^ floorLog2 fuel n ≤ n ∧ n < 2 ^ (floorLog2 fuel n + 1)
  | 0, n, h, hn => by omega
  | fuel + 1, n, h, hn => by
    unfold floorLog2
    split
    · simp only [pow_zero, zero_add, pow_one]
      omega
    · have ih := floorLog2_spec fuel (n / 2) (by omega) (by omega)
      have h2 := Nat.div_add_mod n 2
      have h3 := Nat.mod_lt n (by norm_num : 2 > 0)
      rw [pow_succ, pow_succ]
      rw [pow_succ] at ih
      constructor
      · omega
      · omega

theorem two_zpow_pos (e : ℤ) : (0 : ℚ) < 2 ^ e := zpow_pos (by norm_num) e

theorem two_zpow_le {a b : ℤ} (h : a ≤ b) : (2 : ℚ) ^ a ≤ 2 ^ b :=
  zpow_le_zpow_right₀ (by norm_num) h

theorem lt_of_two_zpow_lt {a b : ℤ} (h : (2 : ℚ) ^ a < 2 ^ b) : a < b := by
  by_contra hcon
  exact absurd (two_zpow_le (not_lt.mp hcon)) (not_le.mpr h)

theorem binaryExponent_bounds {x : ℚ} (hx : x ≠ 0) :
    (2 : ℚ) ^ binaryExponent x ≤ |x| ∧ |x| < (2 : ℚ) ^ (binaryExponent x + 1) := by
  have ha : 0 < x.num.natAbs := Int.natAbs_pos.mpr (Rat.num_ne_zero.mpr hx)
  have hb : 0 < x.den := x.den_pos
  obtain ⟨ha1, ha2⟩ := floorLog2_spec x.num.natAbs x.num.natAbs le_rfl ha
  obtain ⟨hb1, hb2⟩ := floorLog2_spec x.den x.den le_rfl hb
  have habs : |x| = (x.num.natAbs : ℚ) / (x.den : ℚ) := by
    have h1 : (x.num.natAbs : ℚ) = |(x.num : ℚ)| := by
      rw [← Int.cast_abs, ← Int.natCast_natAbs, Int.cast_natCast]
    conv_lhs => rw [← Rat.num_div_den x]
    rw [abs_div, Nat.abs_cast, h1]
  have hbq : (0 : ℚ) < (x.den : ℚ) := by exact_mod_cast hb
  have hlow : (2 : ℚ) ^ ((floorLog2 x.num.natAbs x.num.natAbs : ℤ)
      - (floorLog2 x.den x.den : ℤ) - 1) ≤ |x| := by
    rw [habs, le_div_iff₀ hbq]
    have e1 : (2 : ℚ) ^ ((floorLog2 x.num.natAbs x.num.natAbs : ℤ)
        - (floorLog2 x.den x.den : ℤ) - 1) * (2 : ℚ) ^ ((floorLog2 x.den x.den : ℤ) + 1)
        = (2 : ℚ) ^ (floorLog2 x.num.natAbs x.num.natAbs : ℤ) := by
      rw [← zpow_add₀ (by norm_num : (2 : ℚ) ≠ 0)]
      congr 1
      ring
    have h1 : (x.den : ℚ) ≤ (2 : ℚ) ^ ((floorLog2 x.den x.den : ℤ) + 1) := by
      have : (x.den : ℚ) ≤ ((2 ^ (floorLog2 x.den x.den + 1) : ℕ) : ℚ) := by
        exact_mod_cast hb2.le
      rw [show ((floorLog2 x.den x.den : ℤ) + 1) = ((floorLog2 x.den x.den + 1 : ℕ) : ℤ) by
        push_cast; ring, zpow_natCast]
      exact_mod_cast this
    have h2 : (2 : ℚ) ^ (floorLog2 x.num.natAbs x.num.natAbs : ℤ) ≤ (x.num.natAbs : ℚ) := by
      rw [zpow_natCast]
      exact_mod_cast ha1
    calc (2 : ℚ) ^ ((floorLog2 x.num.natAbs x.num.natAbs : ℤ)
          - (floorLog2 x.den x.den : ℤ) - 1) * (x.den : ℚ)
        ≤ (2 : ℚ) ^ ((floorLog2 x.num.natAbs x.num.natAbs : ℤ)
          - (floorLog2 x.den x.den : ℤ) - 1) * (2 : ℚ) ^ ((floorLog2 x.den x.den : ℤ) + 1) :=
          mul_le_mul_of_nonneg_left h1 (two_zpow_pos _).le
      _ = (2 : ℚ) ^ (floorLog2 x.num.natAbs x.num.natAbs : ℤ) := e1
      _ ≤ (x.num.natAbs : ℚ) := h2
  have hhigh : |x| < (2 : ℚ) ^ ((floorLog2 x.num.natAbs x.num.natAbs : ℤ)
      - (floorLog2 x.den x.den : ℤ) + 1) := by
    rw [habs, div_lt_iff₀ hbq]
    have e1 : (2 : ℚ) ^ ((floorLog2 x.num.natAbs x.num.natAbs : ℤ)
        - (floorLog2 x.den x.den : ℤ) + 1) * (2 : ℚ) ^ (floorLog2 x.den x.den : ℤ)
        = (2 : ℚ) ^ ((floorLog2 x.num.natAbs x.num.natAbs : ℤ) + 1) := by
      rw [← zpow_add₀ (by norm_num : (2 : ℚ) ≠ 0)]
      congr 1
      ring
    have h1 : (2 : ℚ) ^ (floorLog2 x.den x.den : ℤ) ≤ (x.den : ℚ) := by
      rw [zpow_natCast]
      exact_mod_cast hb1
    have h2 : (x.num.natAbs : ℚ) < (2 : ℚ) ^ ((floorLog2 x.num.natAbs x.num.natAbs : ℤ) + 1) := by
      have : (x.num.natAbs : ℚ) < ((2 ^ (floorLog2 x.num.natAbs x.num.natAbs + 1) : ℕ) : ℚ) := by
        exact_mod_cast ha2
      rw [show ((floorLog2 x.num.natAbs x.num.natAbs : ℤ) + 1)
        = ((floorLog2 x.num.natAbs x.num.natAbs + 1 : ℕ) : ℤ) by push_cast; ring, zpow_natCast]
      exact_mod_cast this
    calc (x.num.natAbs : ℚ)
        < (2 : ℚ) ^ ((floorLog2 x.num.natAbs x.num.natAbs : ℤ) + 1) := h2
      _ = (2 : ℚ) ^ ((floorLog2 x.num.natAbs x.num.natAbs : ℤ)
          - (floorLog2 x.den x.den : ℤ) + 1) * (2 : ℚ) ^ (floorLog2 x.den x.den : ℤ) := e1.symm
      _ ≤ (2 : ℚ) ^ ((floorLog2 x.num.natAbs x.num.natAbs : ℤ)
          - (floorLog2 x.den x.den : ℤ) + 1) * (x.den : ℚ) :=
          mul_le_mul_of_nonneg_left h1 (two_zpow_pos _).le
  unfold binaryExponent
  simp only
  split
  · rename_i h
    exact ⟨h, hhigh⟩
  · rename_i h
    refine ⟨hlow, ?_⟩
    rw [sub_add_cancel]
    exact not_le.mp h

theorem binaryExponent_mono {x y : ℚ} (hx : 0 < x) (h : x ≤ y) :
    binaryExponent x ≤ binaryExponent y := by
  have hy : 0 < y := lt_of_lt_of_le hx h
  have bx := binaryExponent_bounds (ne_of_gt hx)
  have by' := binaryExponent_bounds (ne_of_gt hy)
  rw [abs_of_pos hx] at bx
  rw [abs_of_pos hy] at by'
  have : (2 : ℚ) ^ binaryExponent x < 2 ^ (binaryExponent y + 1) :=
    lt_of_le_of_lt bx.1 (lt_of_le_of_lt h by'.2)
  have := lt_of_two_zpow_lt this
  omega

theorem toDouble_zero : toDouble 0 = 0 := by
  simp [toDouble, roundHalfEven]

theorem toDouble_nonneg {x : ℚ} (hx : 0 ≤ x) : 0 ≤ toDouble x := by
  unfold toDouble
  have h1 : (0 : ℚ) ≤ x / 2 ^ ulpExponent x := div_nonneg hx (two_zpow_pos _).le
  have h2 : (0 : ℤ) ≤ roundHalfEven (x / 2 ^ ulpExponent x) :=
    le_roundHalfEven_of_le (by exact_mod_cast h1)
  have h3 : (0 : ℚ) ≤ (roundHalfEven (x / 2 ^ ulpExponent x) : ℚ) := by exact_mod_cast h2
  exact mul_nonneg h3 (two_zpow_pos _).le

theorem toDouble_exact (m e : ℤ) (hm : |m| < 2 ^ 53) (he : -1074 ≤ e) :
    toDouble ((m : ℚ) * 2 ^ e) = (m : ℚ) * 2 ^ e := by
  by_cases hm0 : m = 0
  · simp [hm0, toDouble_zero]
  have hmq : (0 : ℚ) < |(m : ℚ)| := abs_pos.mpr (by exact_mod_cast hm0)
  have hxpos : (0 : ℚ) < |(m : ℚ) * 2 ^ e| := by
    rw [abs_mul, abs_of_pos (two_zpow_pos e)]
    exact mul_pos hmq (two_zpow_pos e)
  have hlt : |(m : ℚ) * 2 ^ e| < (2 : ℚ) ^ (53 + e) := by
    rw [abs_mul, abs_of_pos (two_zpow_pos e), zpow_add₀ (by norm_num : (2 : ℚ) ≠ 0)]
    have : |(m : ℚ)| < (2 : ℚ) ^ (53 : ℤ) := by
      have h' : ((|m| : ℤ) : ℚ) < ((2 ^ 53 : ℤ) : ℚ) := by exact_mod_cast hm
      have e53 : (2 : ℚ) ^ (53 : ℤ) = ((2 ^ 53 : ℤ) : ℚ) := by norm_num
      rw [e53, ← Int.cast_abs]
      exact h'
    exact mul_lt_mul_of_pos_right this (two_zpow_pos e)
  have hk : binaryExponent ((m : ℚ) * 2 ^ e) < 53 + e :=
    lt_of_two_zpow_lt
      (lt_of_le_of_lt (binaryExponent_bounds (abs_pos.mp hxpos)).1 hlt)
  have hu : ulpExponent ((m : ℚ) * 2 ^ e) ≤ e := by
    unfold ulpExponent
    exact max_le (by omega) he
  unfold toDouble
  generalize ulpExponent ((m : ℚ) * 2 ^ e) = u at hu
  obtain ⟨d, hd⟩ : ∃ d : ℕ, e = u + d := ⟨(e - u).toNat, by omega⟩
  have hsplit : (2 : ℚ) ^ e = 2 ^ u * 2 ^ d := by
    rw [hd, zpow_add₀ (by norm_num : (2 : ℚ) ≠ 0), zpow_natCast]
  have hquot : (m : ℚ) * 2 ^ e / 2 ^ u = ((m * 2 ^ d : ℤ) : ℚ) := by
    rw [hsplit]
    push_cast
    field_simp
    ring
  rw [hquot, roundHalfEven_intCast, hsplit]
  push_cast
  ring

theorem toDouble_mono {x y : ℚ} (hx : 0 ≤ x) (h : x ≤ y) : toDouble x ≤ toDouble y := by
  rcases eq_or_lt_of_le hx with h0 | hpos
  · rw [← h0, toDouble_zero]
    exact toDouble_nonneg (le_trans hx h)
  have hypos : 0 < y := lt_of_lt_of_le hpos h
  have hlog : binaryExponent x ≤ binaryExponent y := binaryExponent_mono hpos h
  have hux : ulpExponent x = max (binaryExponent x - 52) (-1074) := rfl
  have huy : ulpExponent y = max (binaryExponent y - 52) (-1074) := rfl
  have hbx := binaryExponent_bounds (ne_of_gt hpos)
  have hby := binaryExponent_bounds (ne_of_gt hypos)
  rw [abs_of_pos hpos] at hbx
  rw [abs_of_pos hypos] at hby
  have hule : ulpExponent x ≤ ulpExponent y := by
    rw [hux, huy]
    exact max_le_max (by omega) le_rfl
  rcases eq_or_lt_of_le hule with heq | hlt
  · unfold toDouble
    rw [heq]
    have hq : x / 2 ^ ulpExponent y ≤ y / 2 ^ ulpExponent y :=
      div_le_div_of_nonneg_right h (two_zpow_pos _).le
    have hr : (roundHalfEven (x / 2 ^ ulpExponent y) : ℚ)
        ≤ (roundHalfEven (y / 2 ^ ulpExponent y) : ℚ) := by
      exact_mod_cast roundHalfEven_mono hq
    exact mul_le_mul_of_nonneg_right hr (two_zpow_pos _).le
  · have hkx : binaryExponent x + 1 ≤ ulpExponent x + 53 := by
      rw [hux]
      have := le_max_left (binaryExponent x - 52) (-1074)
      omega
    have huy2 : ulpExponent y = binaryExponent y - 52 := by
      rw [huy]
      apply max_eq_left
      by_contra hcon
      have h1 : ulpExponent y = -1074 := by
        rw [huy]
        exact max_eq_right (by omega)
      have h2 : -1074 ≤ ulpExponent x := by
        rw [hux]
        exact le_max_right _ _
      omega
    have hA : toDouble x ≤ (2 : ℚ) ^ (ulpExponent x + 53) := by
      unfold toDouble
      have hxlt : x ≤ (2 : ℚ) ^ (ulpExponent x + 53) :=
        le_trans hbx.2.le (two_zpow_le hkx)
      have hq : x / 2 ^ ulpExponent x ≤ ((2 ^ 53 : ℤ) : ℚ) := by
        rw [div_le_iff₀ (two_zpow_pos _)]
        rw [zpow_add₀ (by norm_num : (2 : ℚ) ≠ 0), mul_comm] at hxlt
        push_cast
        exact_mod_cast hxlt
      have hr : (roundHalfEven (x / 2 ^ ulpExponent x) : ℚ) ≤ ((2 ^ 53 : ℤ) : ℚ) := by
        exact_mod_cast roundHalfEven_le_of_le hq
      calc (roundHalfEven (x / 2 ^ ulpExponent x) : ℚ) * 2 ^ ulpExponent x
          ≤ ((2 ^ 53 : ℤ) : ℚ) * 2 ^ ulpExponent x :=
            mul_le_mul_of_nonneg_right hr (two_zpow_pos _).le
        _ = (2 : ℚ) ^ (ulpExponent x + 53) := by
            rw [zpow_add₀ (by norm_num : (2 : ℚ) ≠ 0), mul_comm]
            push_cast
            norm_cast
    have hC : (2 : ℚ) ^ (ulpExponent y + 52) ≤ toDouble y := by
      unfold toDouble
      have hyge : (2 : ℚ) ^ (ulpExponent y + 52) ≤ y := by
        have := hby.1
        rw [huy2]
        simpa using this
      have hq : ((2 ^ 52 : ℤ) : ℚ) ≤ y / 2 ^ ulpExponent y := by
        rw [le_div_iff₀ (two_zpow_pos _)]
        rw [zpow_add₀ (by norm_num : (2 : ℚ) ≠ 0), mul_comm] at hyge
        push_cast
        exact_mod_cast hyge
      have hr : ((2 ^ 52 : ℤ) : ℚ) ≤ (roundHalfEven (y / 2 ^ ulpExponent y) : ℚ) := by
        exact_mod_cast le_roundHalfEven_of_le hq
      calc (2 : ℚ) ^ (ulpExponent y + 52)
          = ((2 ^ 52 : ℤ) : ℚ) * 2 ^ ulpExponent y := by
            rw [zpow_add₀ (by norm_num : (2 : ℚ) ≠ 0), mul_comm]
            push_cast
            norm_cast
        _ ≤ (roundHalfEven (y / 2 ^ ulpExponent y) : ℚ) * 2 ^ ulpExponent y :=
            mul_le_mul_of_nonneg_right hr (two_zpow_pos _).le
    calc toDouble x ≤ (2 : ℚ) ^ (ulpExponent x + 53) := hA
      _ ≤ (2 : ℚ) ^ (ulpExponent y + 52) := two_zpow_le (by omega)
      _ ≤ toDouble y := hC

theorem toDouble_intCast (m : ℤ) (hm : |m| < 2 ^ 53) : toDouble (m : ℚ) = m := by
  have h := toDouble_exact m 0 hm (by norm_num)
  simpa using h

theorem toDouble_int_div_two_pow (m : ℤ) (k : ℕ) (hm : |m| < 2 ^ 53) (hk : k ≤ 1074) :
    toDouble ((m : ℚ) / 2 ^ k) = (m : ℚ) / 2 ^ k := by
  have h := toDouble_exact m (-(k : ℤ)) hm (by omega)
  rw [zpow_neg, zpow_natCast, ← div_eq_mul_inv] at h
  exact h

theorem toDouble_pos_of_one_le {x : ℚ} (hx : 1 ≤ x) : 1 ≤ toDouble x := by
  have h := toDouble_mono (by norm_num : (0 : ℚ) ≤ 1) hx
  have h1 : toDouble (1 : ℚ) = 1 := by
    have := toDouble_intCast 1 (by norm_num)
    simpa using this
  rwa [h1] at h


/-! ## Claims on `calculateFileSize` and `formatFileSize` -/

/-- C1: for every duration `d ≥ 0` and bitrate `b`, `calculateFileSize d b` is
`b * d / 8 / 1024` in exact arithmetic: 8192 times the result is `b * d`, and the result is
not negative when the bitrate is not. -/
theorem calculateFileSize_eq (d b : ℚ) (hd : 0 ≤ d) :
    calculateFileSize d b = b * d / 8 / 1024 ∧
    calculateFileSize d b * 8192 = b * d ∧
    (0 ≤ b → 0 ≤ calculateFileSize d b) := by
  unfold calculateFileSize
  refine ⟨rfl, ?_, ?_⟩
  · ring
  · intro hb
    positivity

/-- Witness of C1 at 180 seconds and 192 kbps. -/
theorem calculateFileSize_eq_witness :
    (0 : ℚ) ≤ 180 ∧ calculateFileSize 180 192 = 192 * 180 / 8 / 1024 :=
  ⟨by norm_num, (calculateFileSize_eq 180 192 (by norm_num)).1⟩

/-- C2: for a size `s ≥ 0`, `formatFileSize s` is the nearest integer to `s * 1024` (ties
upwards) followed by " KB" when `s < 1`; a one-decimal numeral `a.d` nearest to `s` (ties
upwards) followed by " MB" when `1 ≤ s < 10`; the nearest integer to `s` followed by " MB"
when `10 ≤ s`.  At 0.5, 9.99 and 10 it is "512 KB", "10.0 MB" and "10 MB". -/
theorem formatFileSize_spec (s : ℚ) (hs : 0 ≤ s) :
    (s < 1 → ∃ n : ℕ, s * 1024 - 1 / 2 < n ∧ (n : ℚ) ≤ s * 1024 + 1 / 2 ∧
      formatFileSize s = toString n ++ " KB") ∧
    (1 ≤ s → s < 10 → ∃ a d : ℕ, d < 10 ∧
      s - 1 / 20 < (a : ℚ) + (d : ℚ) / 10 ∧ (a : ℚ) + (d : ℚ) / 10 ≤ s + 1 / 20 ∧
      formatFileSize s = toString a ++ "." ++ toString d ++ " MB") ∧
    (10 ≤ s → ∃ n : ℕ, s - 1 / 2 < n ∧ (n : ℚ) ≤ s + 1 / 2 ∧
      formatFileSize s = toString n ++ " MB") ∧
    formatFileSize (1 / 2) = "512 KB" ∧ formatFileSize (999 / 100) = "10.0 MB" ∧
    formatFileSize 10 = "10 MB" := by
  refine ⟨?_, ?_, ?_, ?_, ?_, ?_⟩
  · intro h1
    have hx : (0 : ℚ) ≤ s * 1024 := by positivity
    refine ⟨(mathRound (s * 1024)).toNat, ?_, ?_, ?_⟩
    · rw [cast_toNat_mathRound hx]; exact (mathRound_bounds _).1
    · rw [cast_toNat_mathRound hx]; exact (mathRound_bounds _).2
    · simp only [formatFileSize, h1, if_true, numToString_mathRound hx]
  · intro h1 h10
    have hx : (0 : ℚ) ≤ |s| * 10 := by positivity
    have habs : |s| = s := abs_of_nonneg hs
    have hdiv : ((mathRound (|s| * 10)).toNat : ℚ)
        = (((mathRound (|s| * 10)).toNat / 10 : ℕ) : ℚ) * 10
          + (((mathRound (|s| * 10)).toNat % 10 : ℕ) : ℚ) := by
      have := Nat.div_add_mod (mathRound (|s| * 10)).toNat 10
      exact_mod_cast (by omega : (mathRound (|s| * 10)).toNat
        = (mathRound (|s| * 10)).toNat / 10 * 10 + (mathRound (|s| * 10)).toNat % 10)
    have hb := mathRound_bounds (|s| * 10)
    rw [← cast_toNat_mathRound hx, hdiv, habs] at hb
    refine ⟨(mathRound (|s| * 10)).toNat / 10, (mathRound (|s| * 10)).toNat % 10,
      Nat.mod_lt _ (by norm_num), ?_, ?_, ?_⟩
    · rw [habs]; linarith [hb.1]
    · rw [habs]; linarith [hb.2]
    · have h1' : ¬ s < 1 := not_lt.mpr h1
      have h0 : ¬ s < 0 := not_lt.mpr hs
      simp only [formatFileSize, toFixed1, h1', h10, h0, if_true, if_false]
      rfl
  · intro h10
    have h1' : ¬ s < 1 := not_lt.mpr (by linarith)
    have h10' : ¬ s < 10 := not_lt.mpr h10
    refine ⟨(mathRound s).toNat, ?_, ?_, ?_⟩
    · rw [cast_toNat_mathRound hs]; exact (mathRound_bounds _).1
    · rw [cast_toNat_mathRound hs]; exact (mathRound_bounds _).2
    · simp only [formatFileSize, h1', h10', if_false, numToString_mathRound hs]
  · decide!
  · decide!
  · decide!

/-- Witness of C2 at the size 4.5 MB. -/
theorem formatFileSize_spec_witness :
    (0 : ℚ) ≤ 9 / 2 ∧ ∃ a d : ℕ, d < 10 ∧
      (9 / 2 : ℚ) - 1 / 20 < (a : ℚ) + (d : ℚ) / 10 ∧ (a : ℚ) + (d : ℚ) / 10 ≤ 9 / 2 + 1 / 20 ∧
      formatFileSize (9 / 2) = toString a ++ "." ++ toString d ++ " MB" :=
  ⟨by norm_num,
    (formatFileSize_spec (9 / 2) (by norm_num)).2.1 (by norm_num) (by norm_num)⟩

/-! ## Claims on the single-song branch of `calculateQualityOptions` -/

/-- C3: when the probe of a single track returns a content-length that reads as `n > 0`
bytes, the options are low, medium, high with sizes `formatFileSize (S * 0.4)`,
`formatFileSize (S * 0.7)` and `formatFileSize S`, where `S` is `n / 1048576` and the two
products are those of the program, rounded to a double; `S` is exactly `n / 1048576` for
`n` below `2 ^ 53`; for the header "5000000" the sizes are "1.9 MB", "3.3 MB" and
"4.8 MB". -/
theorem probed_options (song : Song) (probe : Song → HeadProbe) (contentLength : String)
    (n : ℤ) (hprobe : probe song = .responded (some contentLength))
    (hparse : parseInt contentLength = some n) (hn : 0 < n) :
    (calculateQualityOptions none (some song) probe).map
        (List.map fun o => (o.id, o.size))
      = some [("low", formatFileSize
                (toDouble (toDouble (toDouble n / 1048576) * toDouble (2 / 5)))),
              ("medium", formatFileSize
                (toDouble (toDouble (toDouble n / 1048576) * toDouble (7 / 10)))),
              ("high", formatFileSize (toDouble (toDouble n / 1048576)))] ∧
    (n < 2 ^ 53 → toDouble (toDouble n / 1048576) = (n : ℚ) / 1048576) ∧
    (contentLength = "5000000" →
      (calculateQualityOptions none (some song) probe).map
          (List.map fun o => (o.id, o.size))
        = some [("low", "1.9 MB"), ("medium", "3.3 MB"), ("high", "4.8 MB")]) := by
  have hne : contentLength ≠ "" := by
    intro h
    rw [h, parseInt_empty] at hparse
    exact Option.noConfusion hparse
  have hSpos : (0 : ℚ) < toDouble (toDouble n / 1048576) := by
    have h1 : (1 : ℚ) ≤ toDouble n := toDouble_pos_of_one_le (by exact_mod_cast hn)
    have h2 : (1 : ℚ) / 1048576 ≤ toDouble n / 1048576 :=
      div_le_div_of_nonneg_right h1 (by norm_num)
    have h3 := toDouble_mono (by norm_num : (0 : ℚ) ≤ 1 / 1048576) h2
    have h4 : toDouble ((1 : ℚ) / 1048576) = 1 / 1048576 := by
      have := toDouble_int_div_two_pow 1 20 (by norm_num) (by norm_num)
      norm_num at this ⊢
      exact this
    rw [h4] at h3
    exact lt_of_lt_of_le (by norm_num) h3
  have hsz : actualSizeMB (probe song) song = .val (toDouble (toDouble n / 1048576)) := by
    have hv : JsNum.val (toDouble (toDouble n / 1048576)) ≠ JsNum.val 0 := by
      intro h
      exact (ne_of_gt hSpos) (JsNum.val.inj h)
    have hprobed : probedSizeMB (probe song) = .val (toDouble (toDouble n / 1048576)) := by
      simp only [probedSizeMB, hprobe, hne, ne_eq, not_false_eq_true, if_true, parseIntNum,
        hparse, JsNum.div]
      norm_num
    simp only [actualSizeMB, hprobed, hv, if_false]
  have hgen : (calculateQualityOptions none (some song) probe).map
        (List.map fun o => (o.id, o.size))
      = some [("low", formatFileSize
                (toDouble (toDouble (toDouble n / 1048576) * toDouble (2 / 5)))),
              ("medium", formatFileSize
                (toDouble (toDouble (toDouble n / 1048576) * toDouble (7 / 10)))),
              ("high", formatFileSize (toDouble (toDouble n / 1048576)))] := by
    simp only [calculateQualityOptions, hsz, optionsFor, JsNum.mul, formatFileSizeNum,
      Option.map_some', List.map_cons, List.map_nil]
  refine ⟨hgen, ?_, ?_⟩
  · intro hlt
    have habs : |n| < 2 ^ 53 := by
      rw [abs_of_pos hn]
      exact hlt
    rw [toDouble_intCast n habs]
    have := toDouble_int_div_two_pow n 20 habs (by norm_num)
    norm_num at this ⊢
    exact this
  · intro hcl
    have hn5 : n = 5000000 := by
      have h5 : parseInt "5000000" = some 5000000 := by decide!
      rw [hcl, h5] at hparse
      exact (Option.some.inj hparse).symm
    rw [hgen, hn5]
    have e1 : formatFileSize
        (toDouble (toDouble (toDouble ((5000000 : ℤ) : ℚ) / 1048576) * toDouble (2 / 5)))
        = "1.9 MB" := by decide!
    have e2 : formatFileSize
        (toDouble (toDouble (toDouble ((5000000 : ℤ) : ℚ) / 1048576) * toDouble (7 / 10)))
        = "3.3 MB" := by decide!
    have e3 : formatFileSize (toDouble (toDouble ((5000000 : ℤ) : ℚ) / 1048576))
        = "4.8 MB" := by decide!
    rw [e1, e2, e3]

/-- Witness of C3: a track whose probe answers with the header "5000000". -/
theorem probed_options_witness :
    (calculateQualityOptions none (some ⟨"Song", none, some "a.mp3", none, none, none⟩)
        (fun _ => .responded (some "5000000"))).map (List.map fun o => (o.id, o.size))
      = some [("low", "1.9 MB"), ("medium", "3.3 MB"), ("high", "4.8 MB")] :=
  (probed_options ⟨"Song", none, some "a.mp3", none, none, none⟩
    (fun _ => .responded (some "5000000")) "5000000" 5000000 rfl (by decide!)
    (by decide)).2.2 rfl

theorem probed_options_at_tie :
    (calculateQualityOptions none (some ⟨"Song", none, some "a.mp3", none, none, none⟩)
        (fun _ => .responded (some "1572864"))).map (List.map fun o => (o.id, o.size))
      = some [("low", "614 KB"), ("medium", "1.0 MB"), ("high", "1.5 MB")] := by
  decide!

/-- C4 as stated fails at a track of duration 0 whose probe is rejected: the dialog uses
the estimate for 210 seconds (315/64 MB), not `calculateFileSize 0 192 = 0`. -/
theorem fallback_duration_zero_counterexample :
    actualSizeMB .rejected ⟨"Song", none, some "a.mp3", none, some 0, none⟩
      = .val (calculateFileSize 210 192) ∧
    calculateFileSize 210 192 = 315 / 64 ∧
    calculateFileSize 0 192 = 0 ∧
    actualSizeMB .rejected ⟨"Song", none, some "a.mp3", none, some 0, none⟩
      ≠ .val (calculateFileSize 0 192) := by
  have h1 : actualSizeMB .rejected ⟨"Song", none, some "a.mp3", none, some 0, none⟩
      = .val (calculateFileSize 210 192) := by
    simp [actualSizeMB, probedSizeMB, durationOrDefault]
  have h2 : calculateFileSize 210 192 = 315 / 64 := by
    unfold calculateFileSize; norm_num
  have h3 : calculateFileSize 0 192 = 0 := by
    unfold calculateFileSize; norm_num
  refine ⟨h1, h2, h3, ?_⟩
  rw [h1, h2, h3]
  intro h
  have := JsNum.val.inj h
  norm_num at this

/-- C4, amended: when the probe of a single track is rejected, or answers with no
content-length (absent or empty), the high-tier size is `calculateFileSize d 192`, where
`d` is the track's duration when it is present and non-zero and 210 otherwise; for a
duration of 180 seconds this is 4.21875 MB. -/
theorem fallback_size (song : Song) (probe : HeadProbe)
    (hprobe : probe = .rejected ∨ probe = .responded none ∨ probe = .responded (some "")) :
    (∀ d : ℚ, song.duration = some d → d ≠ 0 →
      actualSizeMB probe song = .val (calculateFileSize d 192) ∧
      calculateFileSize d 192 = 192 * d / 8 / 1024) ∧
    (song.duration = none ∨ song.duration = some 0 →
      actualSizeMB probe song = .val (calculateFileSize 210 192)) ∧
    (song.duration = some 180 → actualSizeMB probe song = .val (421875 / 100000)) := by
  have hp : probedSizeMB probe = .val 0 := by
    rcases hprobe with h | h | h <;> subst h <;> simp [probedSizeMB]
  have hsz : actualSizeMB probe song
      = .val (calculateFileSize (durationOrDefault song.duration) 192) := by
    simp only [actualSizeMB, hp, if_true]
  refine ⟨?_, ?_, ?_⟩
  · intro d hd hd0
    refine ⟨?_, rfl⟩
    rw [hsz, hd]
    simp [durationOrDefault, hd0]
  · intro h
    rw [hsz]
    rcases h with h | h <;> rw [h] <;> simp [durationOrDefault]
  · intro h
    rw [hsz, h]
    simp only [durationOrDefault, calculateFileSize]
    norm_num

/-- Witness of C4 (amended): a rejected probe for a track of 180 seconds. -/
theorem fallback_size_witness :
    actualSizeMB .rejected ⟨"Song", none, some "a.mp3", none, some 180, none⟩
      = .val (421875 / 100000) :=
  (fallback_size ⟨"Song", none, some "a.mp3", none, some 180, none⟩ .rejected
    (Or.inl rfl)).2.2 rfl

/-! ## Claims on the play history -/

theorem handleSetSelectedTrack_loggedIn (s : AppState) (u now : String) (t : Song)
    (hu : s.username = some u) (hne : u ≠ "") :
    (handleSetSelectedTrack s now (some t)).username = some u ∧
    (handleSetSelectedTrack s now (some t)).storedHistory ("history_" ++ u)
      = some (nextHistory ((s.storedHistory ("history_" ++ u)).getD []) t now) := by
  obtain ⟨un, ct, sp, sh, ev⟩ := s
  simp only at hu
  subst hu
  have htr : truthy (some u) = true := by simp [truthy, hne]
  have hfilter : ∀ h : List HistoryEntry,
      h.filter (fun item => item.track.title != t.title || item.track.artist != t.artist)
        = h.filter (fun e => !sameTrack t e) := by
    intro h
    apply List.filter_congr
    intro e _
    simp only [sameTrack, bne, Bool.not_and]
  have htake : ∀ l : List HistoryEntry,
      (if l.length > 100 then l.take 100 else l) = l.take 100 := by
    intro l
    split
    · rfl
    · exact (List.take_of_length_le (by omega)).symm
  simp only [handleSetSelectedTrack, htr, Bool.not_true, Bool.false_eq_true, if_false,
    Function.update_same, hfilter, htake, nextHistory, true_and]
  cases sh ("history_" ++ u) <;> rfl

theorem nextHistory_cons (h : List HistoryEntry) (t : Song) (now : String) :
    nextHistory h t now
      = { track := t, playedAt := now } :: (h.filter (fun e => !sameTrack t e)).take 99 := by
  simp [nextHistory, List.take_succ_cons]

theorem nextHistory_rest_no_match (h : List HistoryEntry) (t : Song) :
    ∀ e ∈ (h.filter (fun e => !sameTrack t e)).take 99, sameTrack t e = false := by
  intro e he
  have := List.mem_of_mem_take he
  simpa using (List.mem_filter.mp this).2

theorem nextHistory_count (h : List HistoryEntry) (t : Song) (now : String) :
    (nextHistory h t now).countP (sameTrack t) = 1 := by
  have h0 : ((h.filter (fun e => !sameTrack t e)).take 99).countP (sameTrack t) = 0 := by
    rw [List.countP_eq_zero]
    intro e he
    simp [nextHistory_rest_no_match h t e he]
  rw [nextHistory_cons, List.countP_cons, h0]
  simp [sameTrack]

/-- C5: for a logged-in user, any stored history and any track `t`, after
`handleSetSelectedTrack` the stored history is the entry of `t` with the timestamp of the
call followed by entries none of which has the title and artist of `t`; so exactly one
entry has them, also after playing `t` a second time, when the timestamp is that of the
second call. -/
theorem history_unique_front (s : AppState) (u now : String) (t : Song)
    (hu : s.username = some u) (hne : u ≠ "") :
    (∃ rest : List HistoryEntry,
      (handleSetSelectedTrack s now (some t)).storedHistory ("history_" ++ u)
        = some ({ track := t, playedAt := now } :: rest) ∧
      (∀ e ∈ rest, ¬ (e.track.title = t.title ∧ e.track.artist = t.artist)) ∧
      ({ track := t, playedAt := now } :: rest).countP
        (fun e => decide (e.track.title = t.title ∧ e.track.artist = t.artist)) = 1) ∧
    (∀ later : String, ∃ rest : List HistoryEntry,
      (handleSetSelectedTrack (handleSetSelectedTrack s now (some t)) later
          (some t)).storedHistory ("history_" ++ u)
        = some ({ track := t, playedAt := later } :: rest) ∧
      (∀ e ∈ rest, ¬ (e.track.title = t.title ∧ e.track.artist = t.artist))) := by
  have key : ∀ (s : AppState) (now : String), s.username = some u →
      ∃ rest : List HistoryEntry,
        (handleSetSelectedTrack s now (some t)).storedHistory ("history_" ++ u)
          = some ({ track := t, playedAt := now } :: rest) ∧
        (∀ e ∈ rest, ¬ (e.track.title = t.title ∧ e.track.artist = t.artist)) ∧
        ({ track := t, playedAt := now } :: rest).countP
          (fun e => decide (e.track.title = t.title ∧ e.track.artist = t.artist)) = 1 := by
    intro s now hu
    have hst := (handleSetSelectedTrack_loggedIn s u now t hu hne).2
    refine ⟨((s.storedHistory ("history_" ++ u)).getD []).filter
      (fun e => !sameTrack t e) |>.take 99, ?_, ?_, ?_⟩
    · rw [hst, nextHistory_cons]
    · intro e he
      have := nextHistory_rest_no_match _ t e he
      simpa [sameTrack] using this
    · have hc := nextHistory_count ((s.storedHistory ("history_" ++ u)).getD []) t now
      rw [nextHistory_cons] at hc
      have hfun : (fun e : HistoryEntry =>
          decide (e.track.title = t.title ∧ e.track.artist = t.artist)) = sameTrack t := by
        funext e
        rw [Bool.eq_iff_iff]
        simp [sameTrack]
      rw [hfun]
      exact hc
  refine ⟨key s now hu, ?_⟩
  intro later
  obtain ⟨rest, h1, h2, _⟩ := key (handleSetSelectedTrack s now (some t)) later
    (handleSetSelectedTrack_loggedIn s u now t hu hne).1
  exact ⟨rest, h1, h2⟩

/-- Witness of C5: the user "ann" plays a track that is already in the stored history. -/
theorem history_unique_front_witness :
    ∃ rest : List HistoryEntry,
      (handleSetSelectedTrack
          { username := some "ann", currentTrack := none, showLoginPopup := false,
            storedHistory := fun _ =>
              some [⟨⟨"B", some "y", none, none, none, none⟩, "t0"⟩,
                    ⟨⟨"A", some "x", none, none, none, none⟩, "t1"⟩],
            historyUpdated := [] }
          "t2" (some ⟨"A", some "x", none, none, none, none⟩)).storedHistory
          ("history_" ++ "ann")
        = some ({ track := ⟨"A", some "x", none, none, none, none⟩, playedAt := "t2" } :: rest) ∧
      (∀ e ∈ rest, ¬ (e.track.title = "A" ∧ e.track.artist = some "x")) ∧
      ({ track := ⟨"A", some "x", none, none, none, none⟩, playedAt := "t2" } :: rest).countP
        (fun e => decide (e.track.title = "A" ∧ e.track.artist = some "x")) = 1 :=
  (history_unique_front
    { username := some "ann", currentTrack := none, showLoginPopup := false,
      storedHistory := fun _ =>
        some [⟨⟨"B", some "y", none, none, none, none⟩, "t0"⟩,
              ⟨⟨"A", some "x", none, none, none, none⟩, "t1"⟩],
      historyUpdated := [] }
    "ann" "t2" ⟨"A", some "x", none, none, none, none⟩ rfl (by decide)).1

/-- C6: the history stored by `handleSetSelectedTrack` has at most 100 entries; when the
previous history has exactly 100 entries, none with the title and artist of the track, the
result is the new entry followed by the first 99 previous entries in their order. -/
theorem history_capped (s : AppState) (u now : String) (t : Song)
    (hu : s.username = some u) (hne : u ≠ "") :
    ∃ stored : List HistoryEntry,
      (handleSetSelectedTrack s now (some t)).storedHistory ("history_" ++ u) = some stored ∧
      stored.length ≤ 100 ∧
      (∀ h : List HistoryEntry, s.storedHistory ("history_" ++ u) = some h →
        h.length = 100 →
        (∀ e ∈ h, ¬ (e.track.title = t.title ∧ e.track.artist = t.artist)) →
        stored = { track := t, playedAt := now } :: h.take 99 ∧
        h.take 99 = h.dropLast) := by
  have hst := (handleSetSelectedTrack_loggedIn s u now t hu hne).2
  refine ⟨_, hst, ?_, ?_⟩
  · simp only [nextHistory, List.length_take]
    exact Nat.min_le_left _ _
  · intro h hh hlen hno
    rw [hh]
    have hfil : h.filter (fun e => !sameTrack t e) = h := by
      rw [List.filter_eq_self]
      intro e he
      have := hno e he
      simp only [sameTrack, Bool.not_eq_true', Bool.and_eq_false_imp, beq_iff_eq]
      intro h1
      simpa [h1] using this
    refine ⟨?_, ?_⟩
    · rw [Option.getD_some, nextHistory_cons, hfil]
    · rw [List.dropLast_eq_take, hlen]

/-- Witness of C6: a stored history of 100 entries of another track; the new entry is put
in front of the first 99 of them. -/
theorem history_capped_witness :
    (handleSetSelectedTrack
        { username := some "ann", currentTrack := none, showLoginPopup := false,
          storedHistory := fun _ =>
            some (List.replicate 100 ⟨⟨"A", some "x", none, none, none, none⟩, "t0"⟩),
          historyUpdated := [] }
        "t1" (some ⟨"B", some "x", none, none, none, none⟩)).storedHistory
        ("history_" ++ "ann")
      = some ({ track := ⟨"B", some "x", none, none, none, none⟩, playedAt := "t1" } ::
          List.replicate 99 ⟨⟨"A", some "x", none, none, none, none⟩, "t0"⟩) := by
  obtain ⟨stored, h1, _, h3⟩ := history_capped
    { username := some "ann", currentTrack := none, showLoginPopup := false,
      storedHistory := fun _ =>
        some (List.replicate 100 ⟨⟨"A", some "x", none, none, none, none⟩, "t0"⟩),
      historyUpdated := [] }
    "ann" "t1" ⟨"B", some "x", none, none, none, none⟩ rfl (by decide)
  have h4 := (h3 (List.replicate 100 ⟨⟨"A", some "x", none, none, none, none⟩, "t0"⟩) rfl
    (List.length_replicate _ _)
    (by
      intro e he
      rw [List.eq_of_mem_replicate he]
      decide)).1
  rw [h1, h4, List.take_replicate]
  rfl

/-! ## Claims on the favorites -/

theorem nodup_titles_filter (l : List SongData) (title : String)
    (h : (l.map (fun x => x.title)).Nodup) :
    ((l.filter (fun x => x.title != title)).map (fun x => x.title)).Nodup :=
  h.sublist ((List.filter_sublist l).map _)

theorem nodup_titles_append (l : List SongData) (x : SongData)
    (h : (l.map (fun y => y.title)).Nodup)
    (hx : l.any (fun y => y.title == x.title) = false) :
    ((l ++ [x]).map (fun y => y.title)).Nodup := by
  rw [List.map_append, List.map_singleton]
  refine List.Nodup.append h (List.nodup_singleton _) ?_
  rw [List.disjoint_singleton]
  intro hmem
  obtain ⟨y, hy, hyt⟩ := List.mem_map.mp hmem
  have : l.any (fun y => y.title == x.title) = true :=
    List.any_eq_true.mpr ⟨y, hy, by simpa using hyt⟩
  rw [hx] at this
  exact Bool.noConfusion this

/-- C7: if neither `liked` nor `added` holds two entries of the same title, the same is
true of the favorites after `handleLike` and after `handleAddToLibrary`, for every song. -/
theorem favorites_titles_nodup (s : SongsState) (album : Album) (now : String) (song : Song)
    (hl : (s.favorites.liked.map (fun x => x.title)).Nodup)
    (ha : (s.favorites.added.map (fun x => x.title)).Nodup) :
    (((handleLike s album now song).favorites.liked.map (fun x => x.title)).Nodup ∧
      ((handleLike s album now song).favorites.added.map (fun x => x.title)).Nodup) ∧
    (((handleAddToLibrary s album now song).favorites.liked.map (fun x => x.title)).Nodup ∧
      ((handleAddToLibrary s album now song).favorites.added.map (fun x => x.title)).Nodup) := by
  obtain ⟨un, ⟨liked, added⟩, sf, ev⟩ := s
  simp only at hl ha
  have hsd : (songData album now song).title = song.title := rfl
  refine ⟨?_, ?_⟩
  · cases un with
    | none => exact ⟨hl, ha⟩
    | some u =>
      by_cases hu : u = ""
      · simp only [handleLike, hu, if_true]
        exact ⟨hl, ha⟩
      · simp only [handleLike, hu, if_false]
        cases hany : liked.any (fun x => x.title == song.title) with
        | true =>
          simp only [if_true]
          exact ⟨nodup_titles_filter liked song.title hl, ha⟩
        | false =>
          simp only [Bool.false_eq_true, if_false]
          exact ⟨nodup_titles_append liked _ hl (by rw [hsd]; exact hany), ha⟩
  · cases un with
    | none => exact ⟨hl, ha⟩
    | some u =>
      by_cases hu : u = ""
      · simp only [handleAddToLibrary, hu, if_true]
        exact ⟨hl, ha⟩
      · simp only [handleAddToLibrary, hu, if_false]
        cases hany : added.any (fun x => x.title == song.title) with
        | true =>
          simp only [if_true]
          exact ⟨hl, nodup_titles_filter added song.title ha⟩
        | false =>
          simp only [Bool.false_eq_true, if_false]
          exact ⟨hl, nodup_titles_append added _ ha (by rw [hsd]; exact hany)⟩

/-- C8: for a song none of whose title is in `liked`, `handleLike` applied twice in a row
gives back the original `liked` sequence, entry for entry and in the same order. -/
theorem like_then_unlike (s : SongsState) (album : Album) (now later : String) (song : Song)
    (hnot : ∀ x ∈ s.favorites.liked, x.title ≠ song.title) :
    (handleLike (handleLike s album now song) album later song).favorites.liked
      = s.favorites.liked := by
  obtain ⟨un, ⟨liked, added⟩, sf, ev⟩ := s
  simp only at hnot
  cases un with
  | none => rfl
  | some u =>
    by_cases hu : u = ""
    · simp only [handleLike, hu, if_true]
    · have h1 : liked.any (fun x => x.title == song.title) = false := by
        rw [List.any_eq_false]
        intro x hx
        simpa using hnot x hx
      have h2 : (liked ++ [songData album now song]).any (fun x => x.title == song.title)
          = true := by
        simp [songData]
      have h3 : (liked ++ [songData album now song]).filter (fun x => x.title != song.title)
          = liked := by
        rw [List.filter_append, List.filter_eq_self.mpr]
        · simp [songData]
        · intro x hx
          simpa using hnot x hx
      simp only [handleLike, hu, if_false, h1, Bool.false_eq_true, h2, if_true, h3]

/-- Witness of C7: liking a second song keeps the titles distinct. -/
theorem favorites_titles_nodup_witness :
    ((handleLike
        { username := some "ann",
          favorites := { liked := [⟨"A", none, none, none, "1", none, none, "t0", none⟩],
                         added := [] },
          storedFavorites := fun _ => none, favoritesUpdated := [] }
        ⟨"1", "Album", none, none, []⟩ "t1"
        ⟨"B", none, none, none, none, none⟩).favorites.liked.map (fun x => x.title)).Nodup :=
  (favorites_titles_nodup
    { username := some "ann",
      favorites := { liked := [⟨"A", none, none, none, "1", none, none, "t0", none⟩],
                     added := [] },
      storedFavorites := fun _ => none, favoritesUpdated := [] }
    ⟨"1", "Album", none, none, []⟩ "t1" ⟨"B", none, none, none, none, none⟩
    (by decide) (by decide)).1.1

/-- Witness of C8: liking and unliking "B" leaves the one liked entry "A". -/
theorem like_then_unlike_witness :
    (handleLike
      (handleLike
        { username := some "ann",
          favorites := { liked := [⟨"A", none, none, none, "1", none, none, "t0", none⟩],
                         added := [] },
          storedFavorites := fun _ => none, favoritesUpdated := [] }
        ⟨"1", "Album", none, none, []⟩ "t1" ⟨"B", none, none, none, none, none⟩)
      ⟨"1", "Album", none, none, []⟩ "t2"
      ⟨"B", none, none, none, none, none⟩).favorites.liked
      = [⟨"A", none, none, none, "1", none, none, "t0", none⟩] :=
  like_then_unlike
    { username := some "ann",
      favorites := { liked := [⟨"A", none, none, none, "1", none, none, "t0", none⟩],
                     added := [] },
      storedFavorites := fun _ => none, favoritesUpdated := [] }
    ⟨"1", "Album", none, none, []⟩ "t1" "t2" ⟨"B", none, none, none, none, none⟩
    (by decide)

/-! ## Claims on the downloads -/

theorem includes_iff (s word : String) : includes s word = true ↔ containsWord s word := by
  unfold includes containsWord
  rw [List.any_eq_true]
  constructor
  · rintro ⟨t, ht, hp⟩
    rw [List.mem_tails] at ht
    obtain ⟨before, hb⟩ := ht
    obtain ⟨after, ha⟩ := List.isPrefixOf_iff_prefix.mp hp
    refine ⟨String.mk before, String.mk after, ?_⟩
    apply String.ext
    simp only [String.data_append]
    show s.toList = before ++ word.toList ++ after
    rw [← hb, ← ha, List.append_assoc]
  · rintro ⟨before, after, h⟩
    refine ⟨word.toList ++ after.toList, ?_, ?_⟩
    · rw [List.mem_tails, h]
      exact ⟨before.toList, by simp [String.toList, String.data_append]⟩
    · exact List.isPrefixOf_iff_prefix.mpr ⟨after.toList, rfl⟩

theorem matchesNonAlnumSpace_eq (c : Char) : matchesNonAlnumSpace c = !isKept c := by
  have hle : ∀ a b : Char, a ≤ b ↔ a.val ≤ b.val := fun _ _ => Iff.rfl
  unfold matchesNonAlnumSpace isKept Char.isAlpha Char.isUpper Char.isLower Char.isDigit
  congr 1
  rw [Bool.eq_iff_iff]
  simp only [Bool.or_eq_true, decide_eq_true_eq, Bool.and_eq_true, hle, ge_iff_le]
  have e1 : ('a' : Char).val = 97 := rfl
  have e2 : ('z' : Char).val = 122 := rfl
  have e3 : ('A' : Char).val = 65 := rfl
  have e4 : ('Z' : Char).val = 90 := rfl
  have e5 : ('0' : Char).val = 48 := rfl
  have e6 : ('9' : Char).val = 57 := rfl
  rw [e1, e2, e3, e4, e5, e6]
  tauto

theorem replaceAll_empty (p : Char → Bool) (l : List Char) :
    replaceAll p [] l = l.filter (fun c => !p c) := by
  induction l with
  | nil => rfl
  | cons c cs ih =>
    cases hc : p c <;> simp [replaceAll, List.filter_cons, hc, ih]

theorem sanitizeTitle_toList (title : String) :
    (sanitizeTitle title).toList = title.toList.filter isKept := by
  unfold sanitizeTitle
  show replaceAll matchesNonAlnumSpace [] title.toList = _
  rw [replaceAll_empty]
  apply List.filter_congr
  intro c _
  rw [matchesNonAlnumSpace_eq, Bool.not_not]

theorem bitrateOf_tier (quality : String) (h : quality ∈ ["low", "medium", "high"]) :
    bitrateOf quality ∈ [128, 256, 320] := by
  simp only [List.mem_cons, List.mem_singleton, List.not_mem_nil, or_false] at h
  rcases h with h | h | h <;> subst h <;> decide

/-- C9: for every song and every two tiers, when the fetch succeeds `handleDownload` saves
in both cases the blob of the response, with its bytes unchanged, and the two file names
differ at most in the bitrate number (128, 256 or 320) before "kbps". -/
theorem download_same_content (song : Song) (q1 q2 : String) (status : ℕ) (blob : Blob)
    (h1 : q1 ∈ ["low", "medium", "high"]) (h2 : q2 ∈ ["low", "medium", "high"]) :
    ∃ (b1 b2 : ℕ) (before after : String) (f1 f2 : SavedFile),
      b1 ∈ [128, 256, 320] ∧ b2 ∈ [128, 256, 320] ∧
      handleDownload song q1 (.response true status blob) = .ok f1 ∧
      handleDownload song q2 (.response true status blob) = .ok f2 ∧
      f1.content = blob ∧ f2.content = blob ∧ f1.content.bytes = f2.content.bytes ∧
      f1.filename = before ++ toString b1 ++ "kbps" ++ after ∧
      f2.filename = before ++ toString b2 ++ "kbps" ++ after := by
  have hname : ∀ b : ℕ, fileNameOf song.title b blob
      = (sanitizeTitle song.title ++ "_") ++ toString b ++ "kbps"
        ++ ("." ++ extensionOf blob.type) := by
    intro b
    simp only [fileNameOf, String.append_assoc]
    rfl
  refine ⟨bitrateOf q1, bitrateOf q2, sanitizeTitle song.title ++ "_",
    "." ++ extensionOf blob.type, ⟨fileNameOf song.title (bitrateOf q1) blob, blob⟩,
    ⟨fileNameOf song.title (bitrateOf q2) blob, blob⟩,
    bitrateOf_tier q1 h1, bitrateOf_tier q2 h2, rfl, rfl, rfl, rfl, rfl, hname _, hname _⟩

/-- Witness of C9: the same response saved at the tiers low and high. -/
theorem download_same_content_witness :
    ∃ (b1 b2 : ℕ) (before after : String) (f1 f2 : SavedFile),
      b1 ∈ [128, 256, 320] ∧ b2 ∈ [128, 256, 320] ∧
      handleDownload ⟨"My Song!", none, some "a.mp3", none, none, none⟩ "low"
        (.response true 200 ⟨[73, 68, 51], "audio/mpeg"⟩) = .ok f1 ∧
      handleDownload ⟨"My Song!", none, some "a.mp3", none, none, none⟩ "high"
        (.response true 200 ⟨[73, 68, 51], "audio/mpeg"⟩) = .ok f2 ∧
      f1.content = ⟨[73, 68, 51], "audio/mpeg"⟩ ∧ f2.content = ⟨[73, 68, 51], "audio/mpeg"⟩ ∧
      f1.content.bytes = f2.content.bytes ∧
      f1.filename = before ++ toString b1 ++ "kbps" ++ after ∧
      f2.filename = before ++ toString b2 ++ "kbps" ++ after :=
  download_same_content ⟨"My Song!", none, some "a.mp3", none, none, none⟩ "low" "high" 200
    ⟨[73, 68, 51], "audio/mpeg"⟩ (by decide) (by decide)

/-- C10: the file saved by `handleDownload`, and the file added for a fetched track by the
loop of `handleAlbumDownload`, is named `sanitizeTitle title ++ "_" ++ bitrate ++ "kbps."
++ ext`, with bitrate 128, 256, 320 for low, medium, high; the sanitized title is the
title without the characters that are not ASCII letters, digits or whitespace, the others
in their order; `ext` is "wav", "m4a" or "flac" when the content type contains that word,
tested in that order, and "mp3" otherwise. -/
theorem saved_filename (song : Song) (status : ℕ) (blob : Blob) :
    handleDownload song "low" (.response true status blob)
      = .ok ⟨sanitizeTitle song.title ++ "_" ++ "128" ++ "kbps." ++ extensionOf blob.type,
          blob⟩ ∧
    handleDownload song "medium" (.response true status blob)
      = .ok ⟨sanitizeTitle song.title ++ "_" ++ "256" ++ "kbps." ++ extensionOf blob.type,
          blob⟩ ∧
    handleDownload song "high" (.response true status blob)
      = .ok ⟨sanitizeTitle song.title ++ "_" ++ "320" ++ "kbps." ++ extensionOf blob.type,
          blob⟩ ∧
    (∀ (bitrate i : ℕ) (rest : List Song) (files : List ZipEntry),
      addTracks bitrate (fun _ => .response true status blob) i (song :: rest) files
        = addTracks bitrate (fun _ => .response true status blob) (i + 1) rest
            (zipFile files
              (sanitizeTitle song.title ++ "_" ++ toString bitrate ++ "kbps."
                ++ extensionOf blob.type) blob)) ∧
    bitrateOf "low" = 128 ∧ bitrateOf "medium" = 256 ∧ bitrateOf "high" = 320 ∧
    (sanitizeTitle song.title).toList = song.title.toList.filter isKept ∧
    (containsWord blob.type "wav" → extensionOf blob.type = "wav") ∧
    (¬ containsWord blob.type "wav" → containsWord blob.type "m4a" →
      extensionOf blob.type = "m4a") ∧
    (¬ containsWord blob.type "wav" → ¬ containsWord blob.type "m4a" →
      containsWord blob.type "flac" → extensionOf blob.type = "flac") ∧
    (¬ containsWord blob.type "wav" → ¬ containsWord blob.type "m4a" →
      ¬ containsWord blob.type "flac" → extensionOf blob.type = "mp3") := by
  have hw : ∀ w : String, ¬ containsWord blob.type w → includes blob.type w = false := by
    intro w h
    rw [← includes_iff] at h
    simpa using h
  refine ⟨rfl, rfl, rfl, ?_, by decide, by decide, by decide, sanitizeTitle_toList _,
    ?_, ?_, ?_, ?_⟩
  · intro bitrate i rest files
    rfl
  · intro h
    simp only [extensionOf, (includes_iff _ _).mpr h, if_true]
  · intro h1 h2
    simp only [extensionOf, hw _ h1, (includes_iff _ _).mpr h2, if_true, Bool.false_eq_true,
      if_false]
  · intro h1 h2 h3
    simp only [extensionOf, hw _ h1, hw _ h2, (includes_iff _ _).mpr h3, if_true,
      Bool.false_eq_true, if_false]
  · intro h1 h2 h3
    simp only [extensionOf, hw _ h1, hw _ h2, hw _ h3, Bool.false_eq_true, if_false]

/-- Witness of C10: the title "My Song!" saved at the low tier from a wav response. -/
theorem saved_filename_witness :
    handleDownload ⟨"My Song!", none, some "a.wav", none, none, none⟩ "low"
        (.response true 200 ⟨[82, 73, 70, 70], "audio/wav"⟩)
      = .ok ⟨"My Song_128kbps.wav", ⟨[82, 73, 70, 70], "audio/wav"⟩⟩ := by
  rw [(saved_filename ⟨"My Song!", none, some "a.wav", none, none, none⟩ 200
    ⟨[82, 73, 70, 70], "audio/wav"⟩).1]
  have h : sanitizeTitle "My Song!" ++ "_" ++ "128" ++ "kbps." ++ extensionOf "audio/wav"
      = "My Song_128kbps.wav" := by decide
  rw [h]

/-! ## Claims on the album archive -/

theorem handleAlbumDownload_offers (album : Album) (quality : String)
    (fetched : ℕ → FetchResult) :
    handleAlbumDownload (some album) quality none fetched none
      = .ok (some
          { filename :=
              sanitizeTitle album.title ++ "_" ++ toString (bitrateOf quality) ++ "kbps.zip"
            folder := album.title
            files := addTracks (bitrateOf quality) fetched 0 album.songs [] }) := rfl

theorem zipFile_new (files : List ZipEntry) (fileName : String) (blob : Blob)
    (h : fileName ∉ files.map (fun f => f.name)) :
    zipFile files fileName blob = files ++ [{ name := fileName, content := blob }] := by
  have hany : files.any (fun f => f.name == fileName) = false := by
    rw [List.any_eq_false]
    intro f hf hname
    apply h
    rw [List.mem_map]
    exact ⟨f, hf, by simpa using hname⟩
  simp only [zipFile, hany, Bool.false_eq_true, if_false]

theorem addTracks_distinct_names (bitrate : ℕ) (fetched : ℕ → FetchResult) (songs : List Song) :
    ∀ (i : ℕ) (files : List ZipEntry),
      (files.map (fun f => f.name)
        ++ (fetchedFiles bitrate fetched i songs).map (fun f => f.name)).Nodup →
      addTracks bitrate fetched i songs files
        = files ++ fetchedFiles bitrate fetched i songs := by
  induction songs with
  | nil =>
    intro i files _
    simp [addTracks, fetchedFiles]
  | cons song rest ih =>
    intro i files hnd
    cases hf : fetched i with
    | rejected message =>
      simp only [addTracks, fetchedFiles, hf] at hnd ⊢
      exact ih (i + 1) files hnd
    | response ok status blob =>
      cases ok with
      | false =>
        simp only [addTracks, fetchedFiles, hf] at hnd ⊢
        exact ih (i + 1) files hnd
      | true =>
        simp only [addTracks, fetchedFiles, hf, List.map_cons] at hnd ⊢
        have hnew : fileNameOf song.title bitrate blob ∉ files.map (fun f => f.name) := by
          intro hmem
          have := (List.nodup_append.mp hnd).2.2
          exact this hmem (List.mem_cons_self _ _)
        rw [zipFile_new files _ blob hnew, ih (i + 1), List.append_assoc]
        · rfl
        · rw [List.map_append, List.map_singleton, List.append_assoc]
          exact hnd

theorem album_archive_of_distinct_names (album : Album) (quality : String)
    (fetched : ℕ → FetchResult)
    (hnames : ((fetchedFiles (bitrateOf quality) fetched 0 album.songs).map
      (fun f => f.name)).Nodup) :
    handleAlbumDownload (some album) quality none fetched none
      = .ok (some
          { filename :=
              sanitizeTitle album.title ++ "_" ++ toString (bitrateOf quality) ++ "kbps.zip"
            folder := album.title
            files := fetchedFiles (bitrateOf quality) fetched 0 album.songs }) := by
  rw [handleAlbumDownload_offers,
    addTracks_distinct_names (bitrateOf quality) fetched album.songs 0 [] (by simpa using hnames)]
  rfl

theorem album_skips_failed_track :
    handleAlbumDownload
        (some ⟨"1", "Album", none, none,
          [⟨"One", none, some "1.mp3", none, none, none⟩,
           ⟨"Two", none, some "2.mp3", none, none, none⟩,
           ⟨"Three", none, some "3.mp3", none, none, none⟩]⟩)
        "high" none
        (fun i => if i = 1 then .response false 404 ⟨[], "text/html"⟩
          else .response true 200 ⟨[i], "audio/mpeg"⟩)
        none
      = .ok (some
          { filename := "Album_320kbps.zip"
            folder := "Album"
            files := [⟨"One_320kbps.mp3", ⟨[0], "audio/mpeg"⟩⟩,
                      ⟨"Three_320kbps.mp3", ⟨[2], "audio/mpeg"⟩⟩] }) := by
  rw [handleAlbumDownload_offers]
  refine congrArg Except.ok (congrArg some ?_)
  decide

/-- C11, at an album of two tracks of the same title, both fetched: the operation
completes and offers a save, but the archive holds one file, not two; the file of the
second track has taken the place of the file of the first. -/
theorem album_same_name_overwrites :
    handleAlbumDownload
        (some ⟨"1", "Album", none, none,
          [⟨"Interlude", none, some "1.mp3", none, none, none⟩,
           ⟨"Interlude", none, some "2.mp3", none, none, none⟩]⟩)
        "high" none (fun i => .response true 200 ⟨[i], "audio/mpeg"⟩) none
      = .ok (some
          { filename := "Album_320kbps.zip"
            folder := "Album"
            files := [⟨"Interlude_320kbps.mp3", ⟨[1], "audio/mpeg"⟩⟩] }) := by
  rw [handleAlbumDownload_offers]
  refine congrArg Except.ok (congrArg some ?_)
  decide

/-- C12, at the album title "AC/DC": the folder of the archive is named by the title as
it is, "AC/DC", not by the sanitized title "ACDC", which only the name of the archive
uses; the folder is the unsanitized title for every album. -/
theorem album_folder_unsanitized :
    (∀ (album : Album) (quality : String) (fetched : ℕ → FetchResult),
      ∃ archive : SavedArchive,
        handleAlbumDownload (some album) quality none fetched none = .ok (some archive) ∧
        archive.folder = album.title) ∧
    handleAlbumDownload
        (some ⟨"1", "AC/DC", none, none, [⟨"One", none, some "1.mp3", none, none, none⟩]⟩)
        "high" none (fun _ => .response true 200 ⟨[1], "audio/mpeg"⟩) none
      = .ok (some
          { filename := "ACDC_320kbps.zip"
            folder := "AC/DC"
            files := [⟨"One_320kbps.mp3", ⟨[1], "audio/mpeg"⟩⟩] }) ∧
    sanitizeTitle "AC/DC" = "ACDC" ∧ "AC/DC" ≠ sanitizeTitle "AC/DC" := by
  refine ⟨?_, ?_, by decide, by decide⟩
  · intro album quality fetched
    exact ⟨_, handleAlbumDownload_offers album quality fetched, rfl⟩
  · rw [handleAlbumDownload_offers]
    refine congrArg Except.ok (congrArg some ?_)
    decide

/-! ## Claims on failures and on the dialog -/

/-- C13: for every song and tier, when the fetch answers with a status that is not a
success, `handleDownload` fails with the error "Network response was not ok: " followed
by the status, and saves no file. -/
theorem download_not_ok (song : Song) (quality : String) (status : ℕ) (blob : Blob) :
    handleDownload song quality (.response false status blob)
      = .error ("Network response was not ok: " ++ toString status) ∧
    ∀ saved : SavedFile, handleDownload song quality (.response false status blob) ≠ .ok saved := by
  have h : handleDownload song quality (.response false status blob)
      = .error ("Network response was not ok: " ++ toString status) := rfl
  refine ⟨h, ?_⟩
  intro saved hs
  rw [h] at hs
  exact Except.noConfusion hs

/-- C14, at an album of one track of 180 seconds whose probe is rejected: the three sizes
shown are "0 KB", the track counting for 0 bytes; the estimate at 192 kbps that the claim
asks for would show "4.2 MB" at the high tier. -/
theorem album_probe_failure_counts_zero :
    (calculateQualityOptions
        (some ⟨"1", "Album", none, none, [⟨"One", none, some "1.mp3", none, some 180, none⟩]⟩)
        none (fun _ => .rejected)).map (List.map fun o => (o.id, o.size))
      = some [("low", "0 KB"), ("medium", "0 KB"), ("high", "0 KB")] ∧
    formatFileSize (calculateFileSize 180 192) = "4.2 MB" := by
  constructor
  · decide!
  · decide!

/-- C15: for a song or an album and every outcome of the probes, also when an error is
raised on the way, `calculateQualityOptions` ends with `isLoadingSizes` false and with
exactly three options, of ids low, medium, high in that order. -/
theorem options_always_three (m : ModalState) (album : Option Album) (song : Option Song)
    (probe : Song → HeadProbe) (thrown : Option String)
    (hpayload : album.isSome ∨ song.isSome) :
    (Modal.calculateQualityOptions m album song probe thrown).isLoadingSizes = false ∧
    (Modal.calculateQualityOptions m album song probe thrown).qualityOptions.map (fun o => o.id)
      = ["low", "medium", "high"] := by
  cases thrown with
  | some e => exact ⟨rfl, rfl⟩
  | none =>
    cases album with
    | some a => exact ⟨rfl, rfl⟩
    | none =>
      cases song with
      | some sg => exact ⟨rfl, rfl⟩
      | none => simp at hpayload

/-- Witness of C15: a song whose probe answers with a header that is not a number. -/
theorem options_always_three_witness :
    (Modal.calculateQualityOptions
        ⟨"high", false, 0, [], true, 0, [], 0, 0⟩ none
        (some ⟨"One", none, some "1.mp3", none, none, none⟩)
        (fun _ => .responded (some "abc")) none).isLoadingSizes = false ∧
    (Modal.calculateQualityOptions
        ⟨"high", false, 0, [], true, 0, [], 0, 0⟩ none
        (some ⟨"One", none, some "1.mp3", none, none, none⟩)
        (fun _ => .responded (some "abc")) none).qualityOptions.map (fun o => o.id)
      = ["low", "medium", "high"] :=
  options_always_three ⟨"high", false, 0, [], true, 0, [], 0, 0⟩ none
    (some ⟨"One", none, some "1.mp3", none, none, none⟩)
    (fun _ => .responded (some "abc")) none (Or.inr rfl)

/-- C16: while `isDownloading` is true `handleClose` changes nothing (no call of `onClose`,
the progress as it was), which is the case from the start of a download on; while it is
false `handleClose` calls `onClose` once and sets the progress to 0. -/
theorem close_ignored_while_downloading (m : ModalState) :
    (m.isDownloading = true → Modal.handleClose m = m) ∧
    (m.isDownloading = false →
      Modal.handleClose m = { m with onCloseCalls := m.onCloseCalls + 1, downloadProgress := 0 }) ∧
    (∀ isAlbumDownload : Bool,
      Modal.handleClose (Modal.handleDownloadStart m isAlbumDownload)
        = Modal.handleDownloadStart m isAlbumDownload) := by
  refine ⟨?_, ?_, ?_⟩
  · intro h
    simp [Modal.handleClose, h]
  · intro h
    simp [Modal.handleClose, h]
  · intro b
    cases b <;> simp [Modal.handleClose, Modal.handleDownloadStart]

/-- Witness of C16: a close request during a download at progress 40. -/
theorem close_ignored_while_downloading_witness :
    Modal.handleClose ⟨"high", true, 40, defaultOptions, false, 0, [0], 0, 1⟩
      = ⟨"high", true, 40, defaultOptions, false, 0, [0], 0, 1⟩ :=
  (close_ignored_while_downloading
    ⟨"high", true, 40, defaultOptions, false, 0, [0], 0, 1⟩).1 rfl

/-- C17, at an album download that fails: the dialog is back with `isDownloading` false,
progress 0, no call of `onClose` and its quality and options as they were (as after every
failed call), but the interval timer of the call is still set, and its next run, with a
random value of 1/2, moves the progress from 0 to 5. -/
theorem progress_moves_after_failure :
    (∀ (m : ModalState) (isAlbumDownload : Bool) (id : ℕ) (message : String),
      (Modal.handleDownloadSettle m isAlbumDownload id (.error message)).isDownloading = false ∧
      (Modal.handleDownloadSettle m isAlbumDownload id (.error message)).downloadProgress = 0 ∧
      (Modal.handleDownloadSettle m isAlbumDownload id (.error message)).onCloseCalls
        = m.onCloseCalls ∧
      (Modal.handleDownloadSettle m isAlbumDownload id (.error message)).selectedQuality
        = m.selectedQuality ∧
      (Modal.handleDownloadSettle m isAlbumDownload id (.error message)).qualityOptions
        = m.qualityOptions ∧
      (Modal.handleDownloadSettle m isAlbumDownload id (.error message)).intervals
        = m.intervals) ∧
    Modal.handleDownloadSettle
        (Modal.handleDownloadStart ⟨"high", false, 0, defaultOptions, false, 0, [], 0, 0⟩ true)
        true 0 (.error "Album download failed")
      = ⟨"high", false, 0, defaultOptions, false, 0, [0], 0, 1⟩ ∧
    Modal.progressTick ⟨"high", false, 0, defaultOptions, false, 0, [0], 0, 1⟩ 0 (1 / 2)
      = ⟨"high", false, 5, defaultOptions, false, 0, [0], 0, 1⟩ := by
  refine ⟨?_, ?_, ?_⟩
  · intro m b id message
    exact ⟨rfl, rfl, rfl, rfl, rfl, rfl⟩
  · decide
  · have h : ¬ ((0 : ℚ) ≥ 90) := by norm_num
    simp only [Modal.progressTick, List.mem_singleton, if_true, h, if_false]
    norm_num

/-- C18: when the current song has the source locator of `s` (`s.src || s.url`),
`handlePlay` flips the play flag and the current song keeps that locator (it is the record
of `s` with that locator, the same record when `s` was playing); otherwise `s`, with its
locator, becomes the current song and the play flag is set, whatever it was. -/
theorem handlePlay_spec (s : PlaybackState) (song : Song) :
    ((∃ cur, s.currentSong = some cur ∧ cur.src = orElseStr song.src song.url) →
      (handlePlay s song).isPlaying = !s.isPlaying ∧
      (handlePlay s song).currentSong = some { song with src := orElseStr song.src song.url } ∧
      (handlePlay s song).currentSong.map (fun c => c.src) = s.currentSong.map (fun c => c.src) ∧
      (s.currentSong = some { song with src := orElseStr song.src song.url } →
        (handlePlay s song).currentSong = s.currentSong)) ∧
    ((¬ ∃ cur, s.currentSong = some cur ∧ cur.src = orElseStr song.src song.url) →
      (handlePlay s song).isPlaying = true ∧
      (handlePlay s song).currentSong = some { song with src := orElseStr song.src song.url } ∧
      (handlePlay s song).selectedTracks
        = s.selectedTracks ++ [{ song with src := orElseStr song.src song.url }]) := by
  constructor
  · rintro ⟨cur, hcur, hsrc⟩
    have h : handlePlay s song
        = { s with
            currentSong := some { song with src := orElseStr song.src song.url }
            isPlaying := !s.isPlaying
            songStateChanged := s.songStateChanged
              ++ [({ song with src := orElseStr song.src song.url }, !s.isPlaying)] } := by
      simp [handlePlay, hcur, hsrc, handleSongStateChange]
    rw [h]
    refine ⟨rfl, rfl, ?_, ?_⟩
    · simp [hcur, hsrc]
    · intro h2
      exact h2.symm
  · intro hno
    have hfalse : (match s.currentSong with
        | some currentSong => decide (currentSong.src = orElseStr song.src song.url)
        | none => false) = false := by
      cases hc : s.currentSong with
      | none => rfl
      | some cur =>
        simp only [decide_eq_false_iff_not]
        intro hsrc
        exact hno ⟨cur, hc, hsrc⟩
    have h : handlePlay s song
        = { s with
            selectedTracks := s.selectedTracks ++ [{ song with src := orElseStr song.src song.url }]
            currentSong := some { song with src := orElseStr song.src song.url }
            isPlaying := true
            songStateChanged := s.songStateChanged
              ++ [({ song with src := orElseStr song.src song.url }, true)] } := by
      simp only [handlePlay, hfalse, Bool.false_eq_true, if_false, handleSongStateChange]
    rw [h]
    exact ⟨rfl, rfl, rfl⟩

/-- Witness of C18: pressing play on the song that is playing pauses it. -/
theorem handlePlay_spec_witness :
    (handlePlay ⟨some ⟨"One", none, some "1.mp3", none, none, none⟩, true, [], []⟩
        ⟨"One", none, none, some "1.mp3", none, none⟩).isPlaying = !true :=
  ((handlePlay_spec ⟨some ⟨"One", none, some "1.mp3", none, none, none⟩, true, [], []⟩
    ⟨"One", none, none, some "1.mp3", none, none⟩).1
    ⟨⟨"One", none, some "1.mp3", none, none, none⟩, rfl, by decide⟩).1

/-! ## Claims on the catalog -/

theorem errorMessageOrDefault_status (status : ℕ) :
    errorMessageOrDefault ("Failed to load albums: " ++ toString status)
      = "Failed to load albums: " ++ toString status := by
  have hne : "Failed to load albums: " ++ toString status ≠ "" := by
    intro h
    have hlen := congrArg String.length h
    rw [String.length_append] at hlen
    have h23 : "Failed to load albums: ".length = 23 := by decide
    have h0 : "".length = 0 := rfl
    omega
  simp only [errorMessageOrDefault, hne, ne_eq, not_false_eq_true, if_true]

/-- C19 as stated fails at a successful response whose payload is not an array: the
catalog is empty but `albumsError` stays null. -/
theorem catalog_not_array_counterexample :
    (fetchAlbums CatalogState.initial (.response true 200 .notArray)).albums = [] ∧
    (fetchAlbums CatalogState.initial (.response true 200 .notArray)).albumsError = none ∧
    ¬ ∃ message : String,
      (fetchAlbums CatalogState.initial (.response true 200 .notArray)).albumsError
        = some message := by
  refine ⟨rfl, rfl, ?_⟩
  rintro ⟨message, h⟩
  exact Option.noConfusion h

/-- C19, amended: when the catalog fetch answers with a status that is not a success, the
catalog stays as it was, empty after the mount, and `albumsError` is the message "Failed
to load albums: " followed by the status; when it answers with a payload that is not an
array, the catalog is empty and `albumsError` is null. -/
theorem catalog_degraded (s : CatalogState) (status : ℕ) (payload : CatalogPayload) :
    (fetchAlbums s (.response false status payload)).albums = s.albums ∧
    (fetchAlbums CatalogState.initial (.response false status payload)).albums = [] ∧
    (fetchAlbums s (.response false status payload)).albumsError
      = some ("Failed to load albums: " ++ toString status) ∧
    (fetchAlbums s (.response true status .notArray)).albums = [] ∧
    (fetchAlbums s (.response true status .notArray)).albumsError = none ∧
    (fetchAlbums s (.response false status payload)).isLoadingAlbums = false ∧
    (fetchAlbums s (.response true status .notArray)).isLoadingAlbums = false := by
  refine ⟨rfl, rfl, ?_, rfl, rfl, rfl, rfl⟩
  simp only [fetchAlbums, Bool.not_false, if_true, errorMessageOrDefault_status]

/-! ## Claims on the progress indicator -/

theorem progressTick_isDownloading (s : ModalState) (id : ℕ) (r : ℚ) :
    (Modal.progressTick s id r).isDownloading = s.isDownloading := by
  unfold Modal.progressTick
  split
  · split <;> rfl
  · rfl

theorem progressTick_bounds (s : ModalState) (id : ℕ) (r : ℚ) (h0 : 0 ≤ r) (h1 : r < 1)
    (hp : s.downloadProgress < 100) :
    s.downloadProgress ≤ (Modal.progressTick s id r).downloadProgress ∧
    (Modal.progressTick s id r).downloadProgress < 100 ∧
    (Modal.progressTick s id r).downloadProgress - s.downloadProgress < 10 := by
  unfold Modal.progressTick
  split
  · split
    · simp only
      refine ⟨le_refl _, hp, ?_⟩
      linarith
    · rename_i hge
      have hlt : s.downloadProgress < 90 := not_le.mp hge
      simp only
      refine ⟨?_, ?_, ?_⟩ <;> linarith
  · refine ⟨le_refl _, hp, ?_⟩
    linarith

theorem afterEvent_invariant (s : ModalState) (e : DownloadEvent) (he : e.inRange)
    (h0 : 0 ≤ s.downloadProgress) (h1 : s.downloadProgress < 100)
    (hd : s.isDownloading = true) :
    0 ≤ (afterEvent s e).downloadProgress ∧ (afterEvent s e).downloadProgress < 100 ∧
    (afterEvent s e).isDownloading = true := by
  cases e with
  | tick id random =>
    have hb := progressTick_bounds s id random he.1 he.2 h1
    refine ⟨le_trans h0 hb.1, hb.2.1, ?_⟩
    show (Modal.progressTick s id random).isDownloading = true
    rw [progressTick_isDownloading]
    exact hd
  | closeRequest =>
    have hsame : afterEvent s DownloadEvent.closeRequest = s := by
      simp [afterEvent, Modal.handleClose, hd]
    rw [hsame]
    exact ⟨h0, h1, hd⟩
  | closingTimeout =>
    show 0 ≤ (Modal.closeTimeout s).downloadProgress ∧
      (Modal.closeTimeout s).downloadProgress < 100 ∧
      (Modal.closeTimeout s).isDownloading = true
    unfold Modal.closeTimeout
    split
    · exact ⟨h0, h1, hd⟩
    · exact ⟨le_refl _, by norm_num, hd⟩

/-- C20: an album download starts at progress 0; a run of the interval timer, from a
progress below 100, leaves the progress at least as large and below 100, adding
`random * 10`, an amount in [0, 10), below 90 and nothing from 90 on; whatever happens
between the start and the end of the download (runs of interval timers, close requests,
which are ignored, and the closing timeout of an earlier download, which puts the progress
back to 0) the progress stays below 100 and the download stays in progress; the progress is
set to 100 when `onAlbumDownload` has resolved and to 0, not 100, when it has failed. -/
theorem progress_below_100_until_resolved (m : ModalState) :
    (Modal.handleDownloadStart m true).downloadProgress = 0 ∧
    (∀ (s : ModalState) (id : ℕ) (r : ℚ), 0 ≤ r → r < 1 → s.downloadProgress < 100 →
      s.downloadProgress ≤ (Modal.progressTick s id r).downloadProgress ∧
      (Modal.progressTick s id r).downloadProgress < 100 ∧
      (id ∈ s.intervals → s.downloadProgress < 90 →
        (Modal.progressTick s id r).downloadProgress = s.downloadProgress + r * 10 ∧
        0 ≤ r * 10 ∧ r * 10 < 10) ∧
      (90 ≤ s.downloadProgress →
        (Modal.progressTick s id r).downloadProgress = s.downloadProgress)) ∧
    (∀ events : List DownloadEvent, (∀ e ∈ events, e.inRange) →
      0 ≤ (events.foldl afterEvent (Modal.handleDownloadStart m true)).downloadProgress ∧
      (events.foldl afterEvent (Modal.handleDownloadStart m true)).downloadProgress < 100 ∧
      (events.foldl afterEvent (Modal.handleDownloadStart m true)).isDownloading = true) ∧
    (∀ (s : ModalState) (id : ℕ),
      (Modal.handleDownloadSettle s true id (.ok ())).downloadProgress = 100) ∧
    (∀ (s : ModalState) (isAlbumDownload : Bool) (id : ℕ) (message : String),
      (Modal.handleDownloadSettle s isAlbumDownload id (.error message)).downloadProgress = 0 ∧
      (Modal.handleDownloadSettle s isAlbumDownload id (.error message)).downloadProgress
        ≠ 100) ∧
    (∀ s : ModalState,
      (Modal.closeTimeout s).downloadProgress
        = if s.closeTimeouts = 0 then s.downloadProgress else 0) := by
  have hstart : (Modal.handleDownloadStart m true).downloadProgress = 0 := rfl
  refine ⟨hstart, ?_, ?_, ?_, ?_, ?_⟩
  · intro s id r h0 h1 hp
    have hb := progressTick_bounds s id r h0 h1 hp
    refine ⟨hb.1, hb.2.1, ?_, ?_⟩
    · intro hid h90
      have hge : ¬ s.downloadProgress ≥ 90 := not_le.mpr h90
      refine ⟨?_, by linarith, by linarith⟩
      simp only [Modal.progressTick, hid, if_true, hge, if_false]
    · intro h90
      have hge : s.downloadProgress ≥ 90 := h90
      by_cases hid : id ∈ s.intervals
      · simp only [Modal.progressTick, hid, if_true, hge]
      · simp only [Modal.progressTick, hid, if_false]
  · intro events hevents
    have key : ∀ (events : List DownloadEvent) (s : ModalState),
        (∀ e ∈ events, e.inRange) → 0 ≤ s.downloadProgress →
        s.downloadProgress < 100 → s.isDownloading = true →
        0 ≤ (events.foldl afterEvent s).downloadProgress ∧
        (events.foldl afterEvent s).downloadProgress < 100 ∧
        (events.foldl afterEvent s).isDownloading = true := by
      intro events
      induction events with
      | nil => intro s _ h0 h1 hd; exact ⟨h0, h1, hd⟩
      | cons e rest ih =>
        intro s he h0 h1 hd
        have hinv := afterEvent_invariant s e (he e (List.mem_cons_self _ _)) h0 h1 hd
        rw [List.foldl_cons]
        exact ih _ (fun u hu => he u (List.mem_cons_of_mem _ hu)) hinv.1 hinv.2.1 hinv.2.2
    exact key events _ hevents (by rw [hstart]) (by rw [hstart]; norm_num) rfl
  · intro s id
    rfl
  · intro s b id message
    have h : (Modal.handleDownloadSettle s b id (.error message)).downloadProgress = 0 := rfl
    refine ⟨h, ?_⟩
    rw [h]
    norm_num
  · intro s
    unfold Modal.closeTimeout
    split <;> rfl

/-- Witness of C20: one run of the timer at progress 85 with a random value of 9/10. -/
theorem progress_below_100_until_resolved_witness :
    (Modal.progressTick ⟨"high", true, 85, defaultOptions, false, 0, [0], 0, 1⟩ 0
        (9 / 10)).downloadProgress < 100 :=
  ((progress_below_100_until_resolved ⟨"high", false, 0, defaultOptions, false, 0, [], 0, 0⟩).2.1
    ⟨"high", true, 85, defaultOptions, false, 0, [0], 0, 1⟩ 0 (9 / 10)
    (by norm_num) (by norm_num) (by norm_num)).2.1

/-- Witness of C19 (amended): a response of status 500. -/
theorem catalog_degraded_witness :
    (fetchAlbums CatalogState.initial (.response false 500 .notArray)).albumsError
      = some ("Failed to load albums: " ++ toString 500) :=
  (catalog_degraded CatalogState.initial 500 .notArray).2.2.1

/-! ## Claims on the login gate and on `getQualityOptions` -/

/-- C21: when no username is stored (the item is absent, or empty),
`handleSetSelectedTrack` leaves the current track, every stored history and the list of
dispatched `historyUpdated` events as they were; it only sets `showLoginPopup`. -/
theorem not_logged_in_only_popup (s : AppState) (now : String) (track : Option Song)
    (hu : s.username = none ∨ s.username = some "") :
    handleSetSelectedTrack s now track = { s with showLoginPopup := true } ∧
    (handleSetSelectedTrack s now track).currentTrack = s.currentTrack ∧
    (handleSetSelectedTrack s now track).storedHistory = s.storedHistory ∧
    (handleSetSelectedTrack s now track).historyUpdated = s.historyUpdated ∧
    (handleSetSelectedTrack s now track).username = s.username ∧
    (handleSetSelectedTrack s now track).showLoginPopup = true := by
  have h : handleSetSelectedTrack s now track = { s with showLoginPopup := true } := by
    have htr : truthy s.username = false := by
      rcases hu with h | h <;> rw [h] <;> rfl
    simp only [handleSetSelectedTrack, htr, Bool.not_false, if_true]
  rw [h]
  exact ⟨rfl, rfl, rfl, rfl, rfl, rfl⟩

/-- Witness of C21: a visitor with a stored history under another key plays a track. -/
theorem not_logged_in_only_popup_witness :
    (handleSetSelectedTrack
        { username := none, currentTrack := none, showLoginPopup := false,
          storedHistory := fun _ => none, historyUpdated := [] }
        "t1" (some ⟨"A", some "x", some "a.mp3", none, none, none⟩)).currentTrack = none ∧
    (handleSetSelectedTrack
        { username := none, currentTrack := none, showLoginPopup := false,
          storedHistory := fun _ => none, historyUpdated := [] }
        "t1" (some ⟨"A", some "x", some "a.mp3", none, none, none⟩)).historyUpdated = [] ∧
    (handleSetSelectedTrack
        { username := none, currentTrack := none, showLoginPopup := false,
          storedHistory := fun _ => none, historyUpdated := [] }
        "t1" (some ⟨"A", some "x", some "a.mp3", none, none, none⟩)).showLoginPopup = true :=
  have h := not_logged_in_only_popup
    { username := none, currentTrack := none, showLoginPopup := false,
      storedHistory := fun _ => none, historyUpdated := [] }
    "t1" (some ⟨"A", some "x", some "a.mp3", none, none, none⟩) (Or.inl rfl)
  ⟨h.2.1, h.2.2.2.1, h.2.2.2.2.2⟩

theorem calculateFileSizeDouble_mono {d b₁ b₂ : ℚ} (hd : 0 ≤ d) (hb : 0 ≤ b₁)
    (h : b₁ ≤ b₂) : calculateFileSizeDouble d b₁ ≤ calculateFileSizeDouble d b₂ := by
  unfold calculateFileSizeDouble
  have h1 : toDouble (b₁ * d) ≤ toDouble (b₂ * d) :=
    toDouble_mono (mul_nonneg hb hd) (mul_le_mul_of_nonneg_right h hd)
  have n1 : 0 ≤ toDouble (b₁ * d) := toDouble_nonneg (mul_nonneg hb hd)
  have h2 : toDouble (toDouble (b₁ * d) / 8) ≤ toDouble (toDouble (b₂ * d) / 8) :=
    toDouble_mono (div_nonneg n1 (by norm_num))
      (div_le_div_of_nonneg_right h1 (by norm_num))
  have n2 : 0 ≤ toDouble (toDouble (b₁ * d) / 8) :=
    toDouble_nonneg (div_nonneg n1 (by norm_num))
  exact toDouble_mono (div_nonneg n2 (by norm_num))
    (div_le_div_of_nonneg_right h2 (by norm_num))

theorem calculateFileSizeDouble_of_int (n b : ℤ) (h : |b * n| < 2 ^ 53) :
    calculateFileSizeDouble n b = calculateFileSize n b := by
  unfold calculateFileSizeDouble calculateFileSize
  have e1 : toDouble ((b : ℚ) * (n : ℚ)) = ((b * n : ℤ) : ℚ) := by
    have := toDouble_intCast (b * n) h
    push_cast at this ⊢
    exact this
  have e2 : toDouble (((b * n : ℤ) : ℚ) / 8) = ((b * n : ℤ) : ℚ) / 8 := by
    have := toDouble_int_div_two_pow (b * n) 3 h (by norm_num)
    norm_num at this ⊢
    exact this
  have e3 : toDouble (((b * n : ℤ) : ℚ) / 8 / 1024) = ((b * n : ℤ) : ℚ) / 8 / 1024 := by
    have := toDouble_int_div_two_pow (b * n) 13 h (by norm_num)
    have e : ((b * n : ℤ) : ℚ) / 8 / 1024 = ((b * n : ℤ) : ℚ) / 2 ^ 13 := by
      rw [div_div]
      norm_num
    rw [e]
    exact this
  simp only [e1, e2, e3]
  push_cast
  ring

/-- C22 as stated fails at the duration 508.613 (the double nearest to it): the three
sizes that the program computes are not in the ratios 0.4 and 0.8, neither exactly nor
after the rounding of the products `0.4 * high` and `0.8 * high`. -/
theorem getQualityOptions_ratio_counterexample :
    (getQualityOptions (toDouble (508613 / 1000))).map (fun o => o.sizeInMB)
      = [8947614520608555 / 1125899906842624, 8947614520608555 / 562949953421312,
         5592259075380347 / 281474976710656] ∧
    (8947614520608555 / 1125899906842624 : ℚ)
      ≠ 2 / 5 * (5592259075380347 / 281474976710656) ∧
    (8947614520608555 / 562949953421312 : ℚ)
      ≠ 4 / 5 * (5592259075380347 / 281474976710656) ∧
    (8947614520608555 / 1125899906842624 : ℚ)
      ≠ toDouble (toDouble (2 / 5) * (5592259075380347 / 281474976710656)) ∧
    (8947614520608555 / 562949953421312 : ℚ)
      ≠ toDouble (toDouble (4 / 5) * (5592259075380347 / 281474976710656)) := by
  refine ⟨?_, ?_, ?_, ?_, ?_⟩
  · decide!
  · norm_num
  · norm_num
  · decide!
  · decide!

/-- C22, amended: for every duration `d`, `getQualityOptions d` is three options, low,
medium, high in that order, with the labels "128k", "256k", "320k", with `sizeInMB` the
value that the program computes for `calculateFileSize d` at 128, 256 and 320 and `size`
its formatting; in exact arithmetic low is 0.4 times high and medium is 0.8 times high,
and so it is in the program for a whole number of seconds below `2 ^ 44`, whose products
are not rounded; for `d ≥ 0` the sizes of the program do not decrease from low to high. -/
theorem getQualityOptions_spec (d : ℚ) :
    (getQualityOptions d).length = 3 ∧
    (getQualityOptions d).map (fun o => (o.quality, o.bitrate, o.sizeInMB))
      = [("low", "128k", calculateFileSizeDouble d 128),
         ("medium", "256k", calculateFileSizeDouble d 256),
         ("high", "320k", calculateFileSizeDouble d 320)] ∧
    (getQualityOptions d).map (fun o => o.size)
      = [formatFileSize (calculateFileSizeDouble d 128),
         formatFileSize (calculateFileSizeDouble d 256),
         formatFileSize (calculateFileSizeDouble d 320)] ∧
    calculateFileSize d 128 = 2 / 5 * calculateFileSize d 320 ∧
    calculateFileSize d 256 = 4 / 5 * calculateFileSize d 320 ∧
    (∀ n : ℤ, d = n → |n| < 2 ^ 44 →
      calculateFileSizeDouble d 128 = 2 / 5 * calculateFileSizeDouble d 320 ∧
      calculateFileSizeDouble d 256 = 4 / 5 * calculateFileSizeDouble d 320) ∧
    (0 ≤ d → calculateFileSizeDouble d 128 ≤ calculateFileSizeDouble d 256 ∧
      calculateFileSizeDouble d 256 ≤ calculateFileSizeDouble d 320) := by
  have hex1 : calculateFileSize d 128 = 2 / 5 * calculateFileSize d 320 := by
    unfold calculateFileSize
    ring
  have hex2 : calculateFileSize d 256 = 4 / 5 * calculateFileSize d 320 := by
    unfold calculateFileSize
    ring
  refine ⟨rfl, ?_, ?_, hex1, hex2, ?_, ?_⟩
  · simp only [getQualityOptions, bitratesEntries, List.map_cons, List.map_nil, Nat.cast_ofNat]
    rfl
  · simp only [getQualityOptions, bitratesEntries, List.map_cons, List.map_nil, Nat.cast_ofNat]
  · intro n hn hlt
    have habs : ∀ b : ℤ, 0 ≤ b → b ≤ 320 → |b * n| < 2 ^ 53 := by
      intro b hb0 hb
      rw [abs_mul, abs_of_nonneg hb0]
      have h1 : b * |n| ≤ 320 * |n| := mul_le_mul_of_nonneg_right hb (abs_nonneg n)
      have h2 : (320 : ℤ) * |n| < 320 * 2 ^ 44 := by
        exact (mul_lt_mul_left (by norm_num : (0 : ℤ) < 320)).mpr hlt
      have h3 : (320 : ℤ) * 2 ^ 44 ≤ 2 ^ 53 := by norm_num
      omega
    have e128 := calculateFileSizeDouble_of_int n 128 (habs 128 (by norm_num) (by norm_num))
    have e256 := calculateFileSizeDouble_of_int n 256 (habs 256 (by norm_num) (by norm_num))
    have e320 := calculateFileSizeDouble_of_int n 320 (habs 320 (by norm_num) (by norm_num))
    push_cast at e128 e256 e320
    rw [hn, e128, e256, e320, ← hn]
    exact ⟨hex1, hex2⟩
  · intro hd
    exact ⟨calculateFileSizeDouble_mono hd (by norm_num) (by norm_num),
      calculateFileSizeDouble_mono hd (by norm_num) (by norm_num)⟩

/-- Witness of C22 (amended): the sizes at 180 seconds. -/
theorem getQualityOptions_spec_witness :
    calculateFileSizeDouble 180 128 ≤ calculateFileSizeDouble 180 256 ∧
    calculateFileSizeDouble 180 256 ≤ calculateFileSizeDouble 180 320 :=
  (getQualityOptions_spec 180).2.2.2.2.2.2 (by norm_num)

end JustVibe
